import Mathlib

/-!
Verification development for the `media_index` media catalog engine
(custom_components/media_index).  The SQLite-backed catalog store
(`cache_manager.py`), the ingest pipeline (`scanner.py`) and the change
watcher (`watcher.py`) are shallowly embedded as pure functions over an
explicit database state.  Timestamps and SQLite INTEGER columns are
modelled as `Int`, REAL columns as `Rat`, nullable columns as `Option`.
-/

namespace MediaIndex

/-- A dynamically typed SQLite cell value.  Needed because the code can
write a TEXT value into an INTEGER-declared column (SQLite does not
enforce column types). -/
inductive SqlVal where
  | int (n : Int)
  | text (s : String)
  | null
deriving DecidableEq, Repr

/-- One row of the `media_files` table (schema in
`CacheManager._create_schema`). -/
structure MediaRow where
  id : Nat
  path : String
  filename : String
  folder : String
  fileType : String
  fileSize : Option Int
  modifiedTime : Int
  createdTime : Option Int
  duration : Option Int
  width : Option Int
  height : Option Int
  orientation : Option String
  lastScanned : Int
  isFavorited : Int
  rating : Int
  ratedAt : Option Int
deriving DecidableEq, Repr

/-- One row of the `exif_data` table (1:1 with `media_files` via
`file_id`, `ON DELETE CASCADE`). -/
structure ExifRow where
  fileId : Nat
  cameraMake : Option String
  cameraModel : Option String
  dateTaken : Option Int
  latitude : Option Rat
  longitude : Option Rat
  altitude : Option Rat
  locationName : Option String
  locationCity : Option String
  locationState : Option String
  locationCountry : Option String
  rating : Option Int
  isFavorited : Int
  iso : Option Int
  aperture : Option Rat
  shutterSpeed : Option String
  focalLength : Option Rat
  focalLength35mm : Option Int
  exposureCompensation : Option String
  meteringMode : Option String
  whiteBalance : Option String
  flash : Option String
deriving DecidableEq, Repr

/-- One row of the `geocode_cache` table. -/
structure GeocodeRow where
  latitude : Rat
  longitude : Rat
  precisionLevel : Int
  locationName : String
  locationCity : String
  locationState : String
  locationCountry : String
  cachedAt : Int
deriving DecidableEq, Repr

/-- One row of the `scan_history` table.  `filesAdded`/`filesUpdated`
are kept dynamically typed because `MediaScanner.scan_folder` passes a
status *string* positionally into the `files_updated` parameter of
`CacheManager.update_scan`. -/
structure ScanRow where
  id : Nat
  folderPath : String
  scanType : String
  startTime : Int
  endTime : Option Int
  filesAdded : SqlVal
  filesUpdated : SqlVal
  filesRemoved : SqlVal
  status : Option String
deriving DecidableEq, Repr

/-- The catalog store state: the tables owned by `CacheManager` that the
claims touch, plus the AUTOINCREMENT counters. -/
structure DB where
  mediaFiles : List MediaRow
  exifData : List ExifRow
  geocodeCache : List GeocodeRow
  scanHistory : List ScanRow
  nextFileId : Nat
  nextScanId : Nat
deriving DecidableEq, Repr

/-- A fresh database (AUTOINCREMENT ids start at 1). -/
def emptyDB : DB :=
  { mediaFiles := [], exifData := [], geocodeCache := [], scanHistory := []
    nextFileId := 1, nextScanId := 1 }

/-- Python truthiness of an optional string: `None` and `""` are falsy. -/
def strTruthy : Option String → Bool
  | some s => s != ""
  | none => false

/-- Python truthiness of an optional number: `None` and `0` are falsy. -/
def ratTruthy : Option Rat → Bool
  | some x => x != 0
  | none => false

/-- Python truthiness of an optional integer: `None` and `0` are falsy. -/
def intTruthy : Option Int → Bool
  | some n => n != 0
  | none => false

/-- The `file_data` dictionary accepted by `CacheManager.add_file`.
`none` in the `Option` fields models an absent key / `None` value (both
are indistinguishable to the `.get` calls in the source). -/
structure FileData where
  path : String
  filename : String
  folder : String
  fileType : String
  fileSize : Option Int
  modifiedTime : Int
  createdTime : Option Int
  duration : Option Int
  width : Option Int
  height : Option Int
  orientation : Option String
  isFavorited : Option Int
  rating : Option Int
  ratedAt : Option Int
deriving DecidableEq, Repr

/-- `COALESCE(NULLIF(excluded_value, 0), old_value)` — the SQL idiom
`add_file` uses so a default `0` favorite/rating does not clobber the
stored value. -/
def coalesceNullif (excluded old : Int) : Int :=
  if excluded = 0 then old else excluded

/-- Find the media row for a path (`SELECT ... WHERE path = ?`). -/
def findMedia (db : DB) (path : String) : Option MediaRow :=
  db.mediaFiles.find? (fun r => r.path == path)

/-- Find the exif row for a file id (`SELECT ... WHERE file_id = ?`). -/
def findExif (db : DB) (fileId : Nat) : Option ExifRow :=
  db.exifData.find? (fun r => r.fileId == fileId)

/-- `CacheManager.add_file` (cache_manager.py:425): reads the existing
row to decide `last_scanned`, then runs
`INSERT ... ON CONFLICT(path) DO UPDATE` with
`COALESCE(NULLIF(excluded.is_favorited, 0), media_files.is_favorited)`
(same for `rating`) and `COALESCE(excluded.rated_at, media_files.rated_at)`.
Returns the updated database and the row id selected back by path.
`currentTime` stands for `datetime.now().timestamp()`. -/
def addFileFreshRow (db : DB) (fd : FileData) (currentTime : Int) : MediaRow :=
  { id := db.nextFileId, path := fd.path, filename := fd.filename
    folder := fd.folder, fileType := fd.fileType, fileSize := fd.fileSize
    modifiedTime := fd.modifiedTime, createdTime := fd.createdTime
    duration := fd.duration, width := fd.width, height := fd.height
    orientation := fd.orientation, lastScanned := currentTime
    isFavorited := fd.isFavorited.getD 0, rating := fd.rating.getD 0
    ratedAt := fd.ratedAt }

/-- The row produced by the `ON CONFLICT(path) DO UPDATE` branch of
`add_file` from the existing row `old`. -/
def addFileMergedRow (old : MediaRow) (fd : FileData) (currentTime : Int) : MediaRow :=
  { old with filename := fd.filename, folder := fd.folder
             fileType := fd.fileType, fileSize := fd.fileSize
             modifiedTime := fd.modifiedTime, createdTime := fd.createdTime
             duration := fd.duration, width := fd.width, height := fd.height
             orientation := fd.orientation
             lastScanned :=
               if old.modifiedTime ≠ fd.modifiedTime then currentTime
               else old.lastScanned
             isFavorited := coalesceNullif (fd.isFavorited.getD 0) old.isFavorited
             rating := coalesceNullif (fd.rating.getD 0) old.rating
             ratedAt := fd.ratedAt.or old.ratedAt }

def addFile (db : DB) (fd : FileData) (currentTime : Int) : DB × Nat :=
  match db.mediaFiles.find? (fun r => r.path == fd.path) with
  | none =>
      ({ db with mediaFiles := db.mediaFiles ++ [addFileFreshRow db fd currentTime]
                 nextFileId := db.nextFileId + 1 }, db.nextFileId)
  | some old =>
      let row := addFileMergedRow old fd currentTime
      ({ db with mediaFiles :=
           db.mediaFiles.map (fun r => if r.path == fd.path then row else r) },
       old.id)

/-- The `exif_data` dictionary produced by the extractors and consumed
by `CacheManager.add_exif_data`.  `width`/`height`/`orientation`/
`videoDuration` are read by the scanner before `add_file`. -/
structure ExifInput where
  cameraMake : Option String
  cameraModel : Option String
  dateTaken : Option Int
  latitude : Option Rat
  longitude : Option Rat
  altitude : Option Rat
  rating : Option Int
  isFavorited : Option Int
  iso : Option Int
  aperture : Option Rat
  shutterSpeed : Option String
  focalLength : Option Rat
  focalLength35mm : Option Int
  exposureCompensation : Option String
  meteringMode : Option String
  whiteBalance : Option String
  flash : Option String
  width : Option Int
  height : Option Int
  orientation : Option String
  videoDuration : Option Int
deriving DecidableEq, Repr

/-- `CacheManager.add_exif_data` (cache_manager.py:509): `INSERT OR
REPLACE` of the exif row.  Location fields are taken from the existing
row when its `location_city` is truthy (non-`NULL`, non-empty) and set
to `NULL` otherwise; `rating`/`is_favorited` come from the extraction
when present there, else from the existing row.  An empty/`None`
extraction result (`if not exif_data: return`) leaves the store
untouched. -/
def mergedExifRow (existing : Option ExifRow) (fileId : Nat) (e : ExifInput) : ExifRow :=
  let keepLoc : Bool :=
    match existing with
    | some ex => strTruthy ex.locationCity
    | none => false
  { fileId := fileId
    cameraMake := e.cameraMake, cameraModel := e.cameraModel
    dateTaken := e.dateTaken, latitude := e.latitude
    longitude := e.longitude, altitude := e.altitude
    locationName := if keepLoc then (existing.bind (fun ex => ex.locationName)) else none
    locationCity := if keepLoc then (existing.bind (fun ex => ex.locationCity)) else none
    locationState := if keepLoc then (existing.bind (fun ex => ex.locationState)) else none
    locationCountry := if keepLoc then (existing.bind (fun ex => ex.locationCountry)) else none
    rating := match e.rating with
      | some r => some r
      | none => existing.bind (fun ex => ex.rating)
    isFavorited := match e.isFavorited with
      | some f => f
      | none => match existing with
        | some ex => ex.isFavorited
        | none => 0
    iso := e.iso, aperture := e.aperture, shutterSpeed := e.shutterSpeed
    focalLength := e.focalLength, focalLength35mm := e.focalLength35mm
    exposureCompensation := e.exposureCompensation
    meteringMode := e.meteringMode, whiteBalance := e.whiteBalance
    flash := e.flash }

def addExifData (db : DB) (fileId : Nat) (exif : Option ExifInput) : DB :=
  match exif with
  | none => db
  | some e =>
    let existing := db.exifData.find? (fun r => r.fileId == fileId)
    let newRow := mergedExifRow existing fileId e
    match existing with
    | some _ =>
      { db with exifData :=
          db.exifData.map (fun r => if r.fileId == fileId then newRow else r) }
    | none =>
      { db with exifData := db.exifData ++ [newRow] }

/-- `CacheManager.has_geocoded_location` (cache_manager.py:579):
`row is not None and row[0] is not None` — only `NULL`-ness of
`location_city` is checked, not emptiness. -/
def hasGeocodedLocation (db : DB) (fileId : Nat) : Bool :=
  match db.exifData.find? (fun r => r.fileId == fileId) with
  | some ex => ex.locationCity.isSome
  | none => false

/-- The `location_data` dictionary of geocoding results. -/
structure LocationData where
  locationName : Option String
  locationCity : Option String
  locationState : Option String
  locationCountry : Option String
deriving DecidableEq, Repr

/-- `CacheManager.update_exif_location` (cache_manager.py:694): UPDATE
of the four location columns, with `.get(key, '')` defaults. -/
def updateExifLocation (db : DB) (fileId : Nat) (loc : LocationData) : DB :=
  { db with exifData := db.exifData.map (fun r =>
      if r.fileId == fileId then
        { r with locationName := some (loc.locationName.getD "")
                 locationCity := some (loc.locationCity.getD "")
                 locationState := some (loc.locationState.getD "")
                 locationCountry := some (loc.locationCountry.getD "") }
      else r) }

/-- `CacheManager.update_favorite` (cache_manager.py:1601): sets
`is_favorited` and `rating` (5 on favorite, 0 on unfavorite) in
`media_files` and, through the path subquery, in `exif_data`; returns
whether the `media_files` UPDATE touched any row. -/
def updateFavorite (db : DB) (path : String) (isFavorite : Bool) : DB × Bool :=
  let favoriteValue : Int := if isFavorite then 1 else 0
  let ratingValue : Int := if isFavorite then 5 else 0
  let rowsAffected := (db.mediaFiles.filter (fun r => r.path == path)).length
  let media := db.mediaFiles.map (fun r =>
    if r.path == path then { r with isFavorited := favoriteValue, rating := ratingValue } else r)
  let fid := (db.mediaFiles.find? (fun r => r.path == path)).map (fun r => r.id)
  let exif := match fid with
    | some i => db.exifData.map (fun r =>
        if r.fileId == i then
          { r with isFavorited := favoriteValue, rating := some ratingValue }
        else r)
    | none => db.exifData
  ({ db with mediaFiles := media, exifData := exif }, decide (0 < rowsAffected))

/-- `CacheManager.remove_file` (cache_manager.py:719): deletes the
media row by path; the exif row goes with it via the
`ON DELETE CASCADE` foreign key (`PRAGMA foreign_keys = ON` is set in
`async_setup`).  The function returns `True` on the non-exception path
regardless of whether a row matched. -/
def removeFile (db : DB) (path : String) : DB × Bool :=
  let removedIds := (db.mediaFiles.filter (fun r => r.path == path)).map (fun r => r.id)
  let media := db.mediaFiles.filter (fun r => r.path != path)
  let exif := db.exifData.filter (fun r => !(removedIds.contains r.fileId))
  ({ db with mediaFiles := media, exifData := exif }, true)

/-- `CacheManager.record_scan` (cache_manager.py:741): inserts a
`scan_history` row with status `'running'` and no end time, returning
`last_insert_rowid()`. -/
def recordScan (db : DB) (folderPath scanType : String) (now : Int) : DB × Nat :=
  let row : ScanRow :=
    { id := db.nextScanId, folderPath := folderPath, scanType := scanType
      startTime := now, endTime := none
      filesAdded := SqlVal.int 0, filesUpdated := SqlVal.int 0
      filesRemoved := SqlVal.int 0, status := some "running" }
  ({ db with scanHistory := db.scanHistory ++ [row]
             nextScanId := db.nextScanId + 1 }, db.nextScanId)

/-- `CacheManager.update_scan` (cache_manager.py:765): sets `end_time`,
`files_added`, `files_updated` and `status` on the scan row.  The
Python signature is `update_scan(scan_id, files_added=0,
files_updated=0, status='completed')`; the caller decides what lands in
each positional slot. -/
def updateScan (db : DB) (scanId : Nat) (filesAdded filesUpdated : SqlVal)
    (status : String) (now : Int) : DB :=
  { db with scanHistory := db.scanHistory.map (fun r =>
      if r.id == scanId then
        { r with endTime := some now, filesAdded := filesAdded
                 filesUpdated := filesUpdated, status := some status }
      else r) }

/-- `scanner.py:297 await self.cache.update_scan(scan_id, files_added, "completed")`:
by Python positional binding `"completed"` lands in `files_updated` and
`status` keeps its default `'completed'`. -/
def scanFinalizeCompleted (db : DB) (scanId : Nat) (filesAdded : Int) (now : Int) : DB :=
  updateScan db scanId (SqlVal.int filesAdded) (SqlVal.text "completed") "completed" now

/-- `scanner.py:281 await self.cache.update_scan(scan_id, files_added, "aborted")`:
`"aborted"` lands in `files_updated` and `status` keeps its default
`'completed'`. -/
def scanFinalizeAborted (db : DB) (scanId : Nat) (filesAdded : Int) (now : Int) : DB :=
  updateScan db scanId (SqlVal.int filesAdded) (SqlVal.text "aborted") "completed" now

/-- `scanner.py:318 await self.cache.update_scan(scan_id, files_added, "failed")`:
`"failed"` lands in `files_updated` and `status` keeps its default
`'completed'`. -/
def scanFinalizeFailed (db : DB) (scanId : Nat) (filesAdded : Int) (now : Int) : DB :=
  updateScan db scanId (SqlVal.int filesAdded) (SqlVal.text "failed") "completed" now

/-- A Python exception escaping an embedded operation. -/
inductive PyError where
  | importError (name : String)
deriving DecidableEq, Repr

/-- The module-level names assigned in
`custom_components/media_index/const.py` (lines 1-97). -/
def constModuleNames : List String :=
  ["DOMAIN",
   "CONF_BASE_FOLDER", "CONF_MEDIA_SOURCE_URI", "CONF_WATCHED_FOLDERS",
   "CONF_SCAN_ON_STARTUP", "CONF_SCAN_SCHEDULE", "CONF_EXTRACT_EXIF",
   "CONF_GEOCODE_ENABLED", "CONF_GEOCODE_PRECISION",
   "CONF_GEOCODE_NATIVE_LANGUAGE", "CONF_MAX_STARTUP_TIME",
   "CONF_CONCURRENT_SCANS", "CONF_BATCH_SIZE", "CONF_CACHE_MAX_AGE",
   "CONF_ENABLE_WATCHER",
   "DEFAULT_BASE_FOLDER", "DEFAULT_SCAN_ON_STARTUP", "DEFAULT_SCAN_SCHEDULE",
   "DEFAULT_EXTRACT_EXIF", "DEFAULT_GEOCODE_ENABLED",
   "DEFAULT_GEOCODE_PRECISION", "DEFAULT_GEOCODE_NATIVE_LANGUAGE",
   "DEFAULT_MAX_STARTUP_TIME", "DEFAULT_CONCURRENT_SCANS",
   "DEFAULT_BATCH_SIZE", "DEFAULT_CACHE_MAX_AGE", "DEFAULT_ENABLE_WATCHER",
   "SCAN_SCHEDULE_STARTUP_ONLY", "SCAN_SCHEDULE_HOURLY",
   "SCAN_SCHEDULE_DAILY", "SCAN_SCHEDULE_WEEKLY", "SCAN_SCHEDULES",
   "SCAN_STATUS_IDLE", "SCAN_STATUS_SCANNING", "SCAN_STATUS_WATCHING",
   "SUPPORTED_IMAGE_EXTENSIONS", "SUPPORTED_VIDEO_EXTENSIONS",
   "SUPPORTED_EXTENSIONS", "DB_NAME",
   "SERVICE_SCAN_FOLDER", "SERVICE_GET_RANDOM_ITEMS",
   "SERVICE_GET_ORDERED_FILES", "SERVICE_GET_FILE_METADATA",
   "SERVICE_GET_RELATED_FILES", "SERVICE_GEOCODE_FILE",
   "SERVICE_FAVORITE_FILE", "SERVICE_RATE_FILE", "SERVICE_DELETE_FILE",
   "SERVICE_MOVE_FILE", "SERVICE_MARK_FOR_EDIT",
   "SERVICE_RESTORE_EDITED_FILES", "SERVICE_CLEANUP_DATABASE",
   "SERVICE_UPDATE_BURST_METADATA",
   "ATTR_SCAN_STATUS", "ATTR_LAST_SCAN_TIME", "ATTR_TOTAL_FOLDERS",
   "ATTR_TOTAL_IMAGES", "ATTR_TOTAL_VIDEOS", "ATTR_WATCHED_FOLDERS",
   "ATTR_MEDIA_PATH", "ATTR_CACHE_SIZE_MB", "ATTR_GEOCODE_ENABLED",
   "ATTR_GEOCODE_CACHE_ENTRIES", "ATTR_GEOCODE_HIT_RATE",
   "ATTR_FILES_WITH_LOCATION", "ATTR_GEOCODE_ATTRIBUTION",
   "GEOCODE_ATTRIBUTION"]

/-- In-memory geocode statistics counters held on the `CacheManager`
instance. -/
structure GeocodeStats where
  cacheHits : Int
  cacheMisses : Int
  counter : Int
deriving DecidableEq, Repr

/-- `round(x, 3)` on the coordinate (models the decimal rounding;
Python's float banker's rounding is approximated by ordinary rounding,
which is irrelevant here because the lookup path is unreachable). -/
def round3 (x : Rat) : Rat :=
  (round (x * 1000) : Int) / 1000

/-- `CacheManager.get_geocode_cache` (cache_manager.py:594).  The body
begins with `from .const import GEOCODE_STATS_BATCH_SIZE`; that import
raises `ImportError` unless the name is assigned in `const.py`, in
which case the rounded-coordinate lookup below would run. -/
def getGeocodeCache (db : DB) (stats : GeocodeStats) (lat lon : Rat) :
    Except PyError (GeocodeStats × Option LocationData) :=
  if constModuleNames.contains "GEOCODE_STATS_BATCH_SIZE" then
    match db.geocodeCache.find? (fun g =>
        g.latitude == round3 lat && g.longitude == round3 lon &&
        g.precisionLevel == 3) with
    | some g =>
        Except.ok ({ stats with cacheHits := stats.cacheHits + 1
                                counter := stats.counter + 1 },
          some { locationName := some g.locationName
                 locationCity := some g.locationCity
                 locationState := some g.locationState
                 locationCountry := some g.locationCountry })
    | none =>
        Except.ok ({ stats with cacheMisses := stats.cacheMisses + 1
                                counter := stats.counter + 1 }, none)
  else
    Except.error (PyError.importError "GEOCODE_STATS_BATCH_SIZE")

/-- `CacheManager.add_geocode_cache` (cache_manager.py:638):
`INSERT OR REPLACE` keyed by the rounded coordinates and precision 3. -/
def addGeocodeCache (db : DB) (lat lon : Rat) (loc : LocationData) (now : Int) : DB :=
  let key := (round3 lat, round3 lon)
  let row : GeocodeRow :=
    { latitude := key.1, longitude := key.2, precisionLevel := 3
      locationName := loc.locationName.getD ""
      locationCity := loc.locationCity.getD ""
      locationState := loc.locationState.getD ""
      locationCountry := loc.locationCountry.getD ""
      cachedAt := now }
  let hit := db.geocodeCache.any (fun g =>
    g.latitude == key.1 && g.longitude == key.2 && g.precisionLevel == 3)
  if hit then
    { db with geocodeCache := db.geocodeCache.map (fun g =>
        if g.latitude == key.1 && g.longitude == key.2 && g.precisionLevel == 3
        then row else g) }
  else
    { db with geocodeCache := db.geocodeCache ++ [row] }

/-- Scanner configuration: geocoding switch, presence of a geocode
service, and the external reverse geocoder (consumed as a function from
coordinates to a place record or `None`). -/
structure ScanCtx where
  enableGeocoding : Bool
  hasGeocodeService : Bool
  geocode : Rat → Rat → Option LocationData

/-- The geocoding block of `MediaScanner.scan_folder`
(scanner.py:228-260): guarded by `enable_geocoding`, service presence,
truthy coordinates and `not already_geocoded`; consults the geocode
cache, on miss calls the external geocoder, caches and attaches the
result.  The `ImportError` raised inside `get_geocode_cache` escapes to
the per-file handler. -/
def scanGeocodeBranch (db : DB) (stats : GeocodeStats) (ctx : ScanCtx)
    (fileId : Nat) (e : ExifInput) (now : Int) :
    Except PyError (DB × GeocodeStats) :=
  let hasCoords := ratTruthy e.latitude && ratTruthy e.longitude
  let alreadyGeocoded := hasGeocodedLocation db fileId
  if ctx.enableGeocoding && ctx.hasGeocodeService && hasCoords && !alreadyGeocoded then
    match e.latitude, e.longitude with
    | some lat, some lon =>
      match getGeocodeCache db stats lat lon with
      | Except.error err => Except.error err
      | Except.ok (stats1, some cached) =>
          Except.ok (updateExifLocation db fileId cached, stats1)
      | Except.ok (stats1, none) =>
          match ctx.geocode lat lon with
          | some loc =>
              Except.ok (updateExifLocation (addGeocodeCache db lat lon loc now) fileId loc, stats1)
          | none => Except.ok (db, stats1)
    | _, _ => Except.ok (db, stats)
  else
    Except.ok (db, stats)

/-- Copy width/height/orientation (images) or width/height/duration
(videos) from the extraction result into the `file_data` dictionary, as
`scan_folder` does before `add_file` (scanner.py:194-212). -/
def applyDimensions (fd : FileData) (exif : Option ExifInput) : FileData :=
  match exif with
  | none => fd
  | some e =>
    if fd.fileType == "image" then
      { fd with width := e.width, height := e.height, orientation := e.orientation }
    else if fd.fileType == "video" then
      { fd with width := e.width, height := e.height, duration := e.videoDuration }
    else fd

/-- The per-file body of `MediaScanner.scan_folder`
(scanner.py:182-261) for one walked file: dimension copy, `add_file`,
then — when extraction returned a truthy dictionary and the id is
positive — `add_exif_data`, the favorite write-back
`update_favorite(path, (rating or 0) >= 5)`, and the geocoding block.
An exception thrown by the geocoding block is caught by the per-file
`except` (the mutations already committed persist). -/
def processFileCore (db1 : DB) (stats : GeocodeStats) (ctx : ScanCtx)
    (path : String) (fileId : Nat) (e : ExifInput) (now : Int) :
    DB × GeocodeStats :=
  if 0 < fileId then
    let db2 := addExifData db1 fileId (some e)
    let rating := e.rating.getD 0
    let isFavorite := decide (5 ≤ rating)
    let db3 := (updateFavorite db2 path isFavorite).1
    match scanGeocodeBranch db3 stats ctx fileId e now with
    | Except.ok (db4, stats1) => (db4, stats1)
    | Except.error _ => (db3, stats)
  else (db1, stats)

def processFile (db : DB) (stats : GeocodeStats) (ctx : ScanCtx)
    (fd : FileData) (exifOpt : Option ExifInput) (now : Int) :
    DB × GeocodeStats :=
  let md := applyDimensions fd exifOpt
  let step1 := addFile db md now
  match exifOpt with
  | none => (step1.1, stats)
  | some e => processFileCore step1.1 stats ctx md.path step1.2 e now

/-- `MediaScanner.scan_file` (scanner.py:327): single-file ingest used
by the watcher.  Differences from the walk body: video dimensions are
not copied into `file_data`, `update_favorite` is called only when
`rating >= 5`, and the geocoding block runs without the
`already_geocoded` check, overwriting the stored location with whatever
the cache/geocoder returned.  An exception (the geocode cache
`ImportError`) is caught by the outer handler, which returns `False`
with the mutations so far kept. -/
def scanFileCore (db1 : DB) (stats : GeocodeStats) (ctx : ScanCtx)
    (path : String) (fileId : Nat) (e : ExifInput) (now : Int) :
    DB × GeocodeStats × Bool :=
  let db2 := addExifData db1 fileId (some e)
  let rating := e.rating.getD 0
  let db3 := if 5 ≤ rating then (updateFavorite db2 path true).1 else db2
  if ctx.enableGeocoding && ctx.hasGeocodeService &&
     ratTruthy e.latitude && ratTruthy e.longitude then
    match e.latitude, e.longitude with
    | some lat, some lon =>
      match getGeocodeCache db3 stats lat lon with
      | Except.error _ => (db3, stats, false)
      | Except.ok (stats1, some cached) =>
          (updateExifLocation db3 fileId cached, stats1, true)
      | Except.ok (stats1, none) =>
          match ctx.geocode lat lon with
          | some loc =>
              (updateExifLocation (addGeocodeCache db3 lat lon loc now) fileId loc,
               stats1, true)
          | none => (db3, stats1, true)
    | _, _ => (db3, stats, true)
  else (db3, stats, true)

def scanFile (db : DB) (stats : GeocodeStats) (ctx : ScanCtx)
    (fd : FileData) (exifOpt : Option ExifInput) (now : Int) :
    DB × GeocodeStats × Bool :=
  let md := if fd.fileType == "image" then applyDimensions fd exifOpt else fd
  let step1 := addFile db md now
  if step1.2 = 0 then (step1.1, stats, false)
  else
    match exifOpt with
    | none => (step1.1, stats, true)
    | some e => scanFileCore step1.1 stats ctx md.path step1.2 e now

/-! ### Ordered listing (`CacheManager.get_ordered_files`) -/

/-- The whitelisted `order_by` values (cache_manager.py:1355-1360);
unknown strings fall back to `date_taken`, so the four constructors
cover every reachable behaviour. -/
inductive OrderBy where
  | dateTaken
  | filename
  | path
  | modifiedTime
deriving DecidableEq, Repr

/-- The whitelisted directions (`asc`/`desc`; unknown strings fall back
to `DESC`). -/
inductive OrderDir where
  | asc
  | desc
deriving DecidableEq, Repr

/-- A sort-field value.  SQLite orders INTEGER values before TEXT
values, which the `int`-below-`str` order below reproduces (a fixed
query only ever compares values of one kind). -/
inductive SortVal where
  | int (n : Int)
  | str (s : String)
deriving DecidableEq, Repr

/-- Strict SQLite ordering on sort-field values. -/
def svLt : SortVal → SortVal → Bool
  | SortVal.int a, SortVal.int b => decide (a < b)
  | SortVal.int _, SortVal.str _ => true
  | SortVal.str _, SortVal.int _ => false
  | SortVal.str a, SortVal.str b => decide (a < b)

/-- A row of the `media_files LEFT JOIN exif_data` result. -/
def JRow : Type := MediaRow × Option ExifRow

instance : DecidableEq JRow := by
  unfold JRow
  infer_instance

/-- The LEFT JOIN `media_files m LEFT JOIN exif_data e ON m.id =
e.file_id` (one joined row per media row; `exif_data.file_id` is the
table's PRIMARY KEY, so at most one exif row matches). -/
def joinedRows (db : DB) : List JRow :=
  db.mediaFiles.map (fun m => (m, db.exifData.find? (fun e => e.fileId == m.id)))

/-- Substring containment, for the SQL `LIKE '%pat%'` tests. -/
def containsSubstr (s pat : String) : Bool :=
  (s.splitOn pat).length != 1

/-- The WHERE filters of `get_ordered_files` (cache_manager.py:1334-
1352): quarantine/edit folders excluded, optional case-insensitive
folder prefix/exact match, optional file-type match.  A `None`/empty
folder filter is falsy in Python and disables the folder condition. -/
def baseFilter (folder : Option String) (recursive : Bool)
    (fileType : Option String) (r : JRow) : Bool :=
  !(containsSubstr r.1.folder "/_Junk") &&
  !(containsSubstr r.1.folder "/_Edit") &&
  (match folder with
   | some f =>
     if f == "" then true
     else if recursive then (r.1.folder.toLower.startsWith f.toLower)
     else (r.1.folder.toLower == f.toLower)
   | none => true) &&
  (match fileType with
   | some t => r.1.fileType == t.toLower
   | none => true)

/-- The sort expression selected by the whitelist:
`COALESCE(e.date_taken, m.modified_time)`, `m.filename`,
`m.folder || '/' || m.filename`, or `m.modified_time`. -/
def sortValue : OrderBy → JRow → SortVal
  | OrderBy.dateTaken, (m, e) => SortVal.int ((e.bind (fun x => x.dateTaken)).getD m.modifiedTime)
  | OrderBy.filename, (m, _) => SortVal.str m.filename
  | OrderBy.path, (m, _) => SortVal.str (m.folder ++ "/" ++ m.filename)
  | OrderBy.modifiedTime, (m, _) => SortVal.int m.modifiedTime

/-- The compound ordering key `(sort_field, id)`. -/
def rowKey (ob : OrderBy) (r : JRow) : SortVal × Nat :=
  (sortValue ob r, r.1.id)

/-- Strict "comes before in the output" order on compound keys for a
direction (`ORDER BY sort_field dir, m.id dir`). -/
def keyLt (dir : OrderDir) (k1 k2 : SortVal × Nat) : Bool :=
  match dir with
  | OrderDir.asc => svLt k1.1 k2.1 || (k1.1 == k2.1 && decide (k1.2 < k2.2))
  | OrderDir.desc => svLt k2.1 k1.1 || (k1.1 == k2.1 && decide (k2.2 < k1.2))

/-- Reflexive closure of `keyLt`, the sorting relation. -/
def keyLe (dir : OrderDir) (k1 k2 : SortVal × Nat) : Bool :=
  keyLt dir k1 k2 || k1 == k2

/-- The compound-cursor WHERE clause (cache_manager.py:1374-1379):
DESC keeps rows with `(sort < after) OR (sort = after AND id < after_id)`,
ASC the mirror image with `>`. -/
def cursorKeepCompound (dir : OrderDir) (ob : OrderBy)
    (afterValue : SortVal) (afterId : Nat) (r : JRow) : Bool :=
  let sv := sortValue ob r
  match dir with
  | OrderDir.desc => svLt sv afterValue || (sv == afterValue && decide (r.1.id < afterId))
  | OrderDir.asc => svLt afterValue sv || (sv == afterValue && decide (afterId < r.1.id))

/-- The simple-cursor fallback used when no `after_id` is supplied
(cache_manager.py:1381-1386). -/
def cursorKeepSimple (dir : OrderDir) (ob : OrderBy)
    (afterValue : SortVal) (r : JRow) : Bool :=
  let sv := sortValue ob r
  match dir with
  | OrderDir.desc => svLt sv afterValue
  | OrderDir.asc => svLt afterValue sv

/-- Query parameters of `get_ordered_files`. -/
structure OrderedQuery where
  count : Nat
  folder : Option String
  recursive : Bool
  fileType : Option String
  orderBy : OrderBy
  dir : OrderDir
  afterValue : Option SortVal
  afterId : Option Nat

/-- The rows passing the non-cursor WHERE filters. -/
def filteredRows (db : DB) (q : OrderedQuery) : List JRow :=
  (joinedRows db).filter (baseFilter q.folder q.recursive q.fileType)

/-- `CacheManager.get_ordered_files` (cache_manager.py:1291):
filter, optional cursor condition, `ORDER BY sort_field dir, m.id dir`,
`LIMIT count`. -/
def getOrderedFiles (db : DB) (q : OrderedQuery) : List JRow :=
  let rows := filteredRows db q
  let rows := match q.afterValue with
    | none => rows
    | some av =>
      match q.afterId with
      | some aid => rows.filter (cursorKeepCompound q.dir q.orderBy av aid)
      | none => rows.filter (cursorKeepSimple q.dir q.orderBy av)
  (List.insertionSort
    (fun a b => keyLe q.dir (rowKey q.orderBy a) (rowKey q.orderBy b) = true) rows).take q.count

/-- The same query without cursor and without LIMIT ("single unbounded
query with the same filters and ordering"). -/
def orderedUnbounded (db : DB) (q : OrderedQuery) : List JRow :=
  List.insertionSort
    (fun a b => keyLe q.dir (rowKey q.orderBy a) (rowKey q.orderBy b) = true)
    (filteredRows db q)

/-- The pagination driver of the completeness property: call
`get_ordered_files`, feed the last row's `(sort value, id)` back as the
compound cursor, stop on an empty page.  `fuel` bounds the number of
round trips. -/
def paginateOrdered (db : DB) (q : OrderedQuery) :
    Nat → Option (SortVal × Nat) → List JRow
  | 0, _ => []
  | fuel + 1, c =>
    let page := getOrderedFiles db
      { q with afterValue := c.map Prod.fst, afterId := c.map Prod.snd }
    match page.getLast? with
    | none => []
    | some last => page ++ paginateOrdered db q fuel (some (rowKey q.orderBy last))

/-! ### Burst query (`CacheManager.get_burst_photos`) -/

/-- The INNER JOIN `media_files m JOIN exif_data e ON m.id = e.file_id`
(`exif_data.file_id` is the PRIMARY KEY, so at most one exif row
matches each media row). -/
def joinedInner (db : DB) : List (MediaRow × ExifRow) :=
  db.mediaFiles.filterMap (fun m =>
    (db.exifData.find? (fun e => e.fileId == m.id)).map (fun e => (m, e)))

/-- Sort key of the burst query (`ORDER BY e.date_taken`); every row in
the result has a non-null capture time, so the default is never
compared. -/
def burstKey (p : MediaRow × ExifRow) : Int :=
  p.2.dateTaken.getD 0

/-- The burst ordering for a `sort_order` argument
(`"time_desc"` descending, everything else ascending). -/
def burstLe (sortOrder : String) (a b : MediaRow × ExifRow) : Bool :=
  if sortOrder == "time_desc" then decide (burstKey b ≤ burstKey a)
  else decide (burstKey a ≤ burstKey b)

/-- `CacheManager.get_burst_photos` (cache_manager.py:1442).  The
`distance` parameter stands for the SQL great-circle expression
`6371000 * acos(...)` evaluated at (reference lat, reference lon, row
lat, row lon); the claims are about the query structure, not the
trigonometry.  Python truthiness gates: a missing reference row, a
missing exif row, a null or zero `date_taken` return `[]`; the distance
filter is active only when both reference coordinates are truthy
(non-null and nonzero) and `prefer_same_location` is set.  Note the
WHERE clause never excludes the reference row itself. -/
def getBurstPhotos (db : DB) (distance : Rat → Rat → Rat → Rat → Rat)
    (referencePath : String) (timeWindowSeconds : Int)
    (preferSameLocation : Bool) (locationToleranceMeters : Int)
    (sortOrder : String) : List (MediaRow × ExifRow) :=
  match findMedia db referencePath with
  | none => []
  | some m =>
    match findExif db m.id with
    | none => []
    | some ex =>
      match ex.dateTaken with
      | none => []
      | some refDt =>
        if refDt = 0 then []
        else
          let locActive := ratTruthy ex.latitude && ratTruthy ex.longitude &&
            preferSameLocation
          let rows := (joinedInner db).filter (fun p =>
            match p.2.dateTaken with
            | none => false
            | some dt =>
              decide (|dt - refDt| ≤ timeWindowSeconds) &&
              (if locActive then
                 match ex.latitude, ex.longitude, p.2.latitude, p.2.longitude with
                 | some rla, some rlo, some la, some lo =>
                     decide (distance rla rlo la lo ≤ (locationToleranceMeters : Rat))
                 | _, _, _, _ => false
               else true))
          List.insertionSort (fun a b => burstLe sortOrder a b = true) rows

/-! ### Change watcher (`watcher.py`) -/

/-- The three pending collections of `MediaFileEventHandler`:
`_pending_new` and `_pending_modified` are insertion-ordered
dictionaries path → arrival timestamp, `_pending_deleted` is a set. -/
structure WatcherState where
  pendingNew : List (String × Nat)
  pendingModified : List (String × Nat)
  pendingDeleted : List String
deriving DecidableEq, Repr

/-- `d[k] = v` on an insertion-ordered dictionary: update the value in
place when the key exists, append otherwise. -/
def dictSet (d : List (String × Nat)) (k : String) (v : Nat) : List (String × Nat) :=
  if d.any (fun kv => kv.1 == k) then
    d.map (fun kv => if kv.1 == k then (k, v) else kv)
  else d ++ [(k, v)]

/-- `d.pop(k, None)`. -/
def dictPop (d : List (String × Nat)) (k : String) : List (String × Nat) :=
  d.filter (fun kv => kv.1 != k)

/-- `k in d`. -/
def dictHas (d : List (String × Nat)) (k : String) : Bool :=
  d.any (fun kv => kv.1 == k)

/-- `s.add(k)` on a set. -/
def setAdd (s : List String) (k : String) : List String :=
  if s.contains k then s else s ++ [k]

/-- `s.discard(k)` on a set. -/
def setDiscard (s : List String) (k : String) : List String :=
  s.filter (fun x => x != k)

/-- `on_created` (watcher.py:57): for a qualifying file, add to *new*
and drop the path from *modified* and *deleted*. -/
def onCreated (isMedia : String → Bool) (st : WatcherState) (p : String)
    (now : Nat) : WatcherState :=
  if isMedia p then
    { pendingNew := dictSet st.pendingNew p now
      pendingModified := dictPop st.pendingModified p
      pendingDeleted := setDiscard st.pendingDeleted p }
  else st

/-- `on_modified` (watcher.py:75): for a qualifying file, add to
*modified* and drop from *deleted* only when the path is not already
pending as new. -/
def onModified (isMedia : String → Bool) (st : WatcherState) (p : String)
    (now : Nat) : WatcherState :=
  if isMedia p then
    if dictHas st.pendingNew p then st
    else
      { st with pendingModified := dictSet st.pendingModified p now
                pendingDeleted := setDiscard st.pendingDeleted p }
  else st

/-- `on_deleted` (watcher.py:93): for a qualifying file, add to
*deleted* and drop the path from *new* and *modified*. -/
def onDeleted (isMedia : String → Bool) (st : WatcherState) (p : String) :
    WatcherState :=
  if isMedia p then
    { pendingNew := dictPop st.pendingNew p
      pendingModified := dictPop st.pendingModified p
      pendingDeleted := setAdd st.pendingDeleted p }
  else st

/-- `on_moved` (watcher.py:111): delete of the source plus create of
the destination, each only when that side qualifies. -/
def onMoved (isMedia : String → Bool) (st : WatcherState) (src dst : String)
    (now : Nat) : WatcherState :=
  if !(isMedia src) && !(isMedia dst) then st
  else
    let st1 := if isMedia src then
      { pendingNew := dictPop st.pendingNew src
        pendingModified := dictPop st.pendingModified src
        pendingDeleted := setAdd st.pendingDeleted src }
      else st
    if isMedia dst then
      { pendingNew := dictSet st1.pendingNew dst now
        pendingModified := dictPop st1.pendingModified dst
        pendingDeleted := setDiscard st1.pendingDeleted dst }
    else st1

/-- `MAX_BATCH_SIZE` (watcher.py:22). -/
def MAX_BATCH_SIZE : Nat := 50

/-- One catalog mutation performed by the drain loop: a cache removal
for a deleted path, or a `scan_file` ingest for a new/modified path. -/
inductive DrainAction where
  | removeFromCache (path : String)
  | ingest (path : String)
deriving DecidableEq, Repr

/-- One iteration of `_process_event_batches` (watcher.py:159-191):
up to `MAX_BATCH_SIZE` deletions first, then the oldest-queued new
files, then the oldest-queued modified files; processed paths are
removed from their pending collection. -/
def drainCycle (st : WatcherState) : WatcherState × List DrainAction :=
  let deletedBatch := st.pendingDeleted.take MAX_BATCH_SIZE
  let deleted1 := st.pendingDeleted.filter (fun p => !(deletedBatch.contains p))
  let sortedNew := List.insertionSort (fun a b => a.2 ≤ b.2) st.pendingNew
  let newBatch := sortedNew.take MAX_BATCH_SIZE
  let new1 := st.pendingNew.filter (fun kv => !(newBatch.any (fun b => b.1 == kv.1)))
  let sortedMod := List.insertionSort (fun a b => a.2 ≤ b.2) st.pendingModified
  let modBatch := sortedMod.take MAX_BATCH_SIZE
  let mod1 := st.pendingModified.filter (fun kv => !(modBatch.any (fun b => b.1 == kv.1)))
  ({ pendingNew := new1, pendingModified := mod1, pendingDeleted := deleted1 },
   deletedBatch.map DrainAction.removeFromCache ++
   newBatch.map (fun kv => DrainAction.ingest kv.1) ++
   modBatch.map (fun kv => DrainAction.ingest kv.1))

/-- Total number of pending entries. -/
def pendingSize (st : WatcherState) : Nat :=
  st.pendingNew.length + st.pendingModified.length + st.pendingDeleted.length

/-- The drain loop of `_process_event_batches`: repeat cycles while any
set has pending entries, exit when all are empty.  `fuel` bounds the
number of cycles. -/
def drainAll : Nat → WatcherState → List DrainAction
  | 0, _ => []
  | fuel + 1, st =>
    if st.pendingNew.isEmpty && st.pendingModified.isEmpty &&
       st.pendingDeleted.isEmpty then []
    else
      let step := drainCycle st
      step.2 ++ drainAll fuel step.1

/-! ### Generic list helpers -/

theorem find?_map_guard {α : Type} (q : α → Bool) (g : α → α) (m : α)
    (hg : q m = true → q (g m) = true) :
    ∀ l : List α, l.find? q = some m →
      (l.map (fun r => if q r then g r else r)).find? q = some (g m) := by
  intro l
  induction l with
  | nil => intro h; simp at h
  | cons a t ih =>
    intro h
    by_cases hqa : q a = true
    · rw [List.find?_cons_of_pos t hqa] at h
      injection h with h2
      subst h2
      simp only [List.map_cons, if_pos hqa]
      exact List.find?_cons_of_pos _ (hg hqa)
    · rw [List.find?_cons_of_neg t hqa] at h
      simp only [List.map_cons, if_neg hqa]
      rw [List.find?_cons_of_neg _ hqa]
      exact ih h

theorem map_guard_id {α : Type} (q : α → Bool) (g : α → α) (l : List α)
    (h : l.find? q = none) :
    (l.map (fun r => if q r then g r else r)) = l := by
  conv_rhs => rw [← List.map_id l]
  refine List.map_congr_left (fun a ha => ?_)
  have : ¬ q a = true := List.find?_eq_none.mp h a ha
  simp [this]

theorem length_filter_lt_of_mem {α : Type} (p : α → Bool) (x : α) :
    ∀ l : List α, x ∈ l → p x = false → (l.filter p).length < l.length := by
  intro l
  induction l with
  | nil => intro h; simp at h
  | cons a t ih =>
    intro hx hpx
    rcases List.mem_cons.mp hx with h | h
    · subst h
      simp only [List.filter_cons, hpx, List.length_cons]
      exact Nat.lt_succ_of_le (List.length_filter_le p t)
    · by_cases hpa : p a = true
      · simpa [List.filter_cons, hpa] using Nat.succ_lt_succ (ih h hpx)
      · simp only [List.filter_cons, Bool.not_eq_true] at hpa ⊢
        rw [hpa]
        simp only [Bool.false_eq_true, if_false]
        exact Nat.lt_succ_of_lt (ih h hpx)

/-! ### Facts about the store operations -/

theorem addFile_exifData (db : DB) (fd : FileData) (t : Int) :
    ((addFile db fd t).1).exifData = db.exifData := by
  unfold addFile
  cases db.mediaFiles.find? (fun r => r.path == fd.path) <;> rfl

theorem addFileMergedRow_path (old : MediaRow) (fd : FileData) (t : Int) :
    (addFileMergedRow old fd t).path = old.path := rfl

theorem addFileMergedRow_id (old : MediaRow) (fd : FileData) (t : Int) :
    (addFileMergedRow old fd t).id = old.id := rfl

theorem addFile_of_found (db : DB) (fd : FileData) (t : Int) (old : MediaRow)
    (h : db.mediaFiles.find? (fun r => r.path == fd.path) = some old) :
    addFile db fd t =
      ({ db with mediaFiles := db.mediaFiles.map (fun r =>
           if r.path == fd.path then addFileMergedRow old fd t else r) },
       old.id) := by
  unfold addFile
  rw [h]

theorem addFile_find?_of_found (db : DB) (fd : FileData) (t : Int) (old : MediaRow)
    (h : db.mediaFiles.find? (fun r => r.path == fd.path) = some old) :
    ((addFile db fd t).1).mediaFiles.find? (fun r => r.path == fd.path)
      = some (addFileMergedRow old fd t) := by
  rw [addFile_of_found db fd t old h]
  exact find?_map_guard _ (fun _ => addFileMergedRow old fd t) old
    (fun _ => by
      have hq := List.find?_some h
      simpa [addFileMergedRow_path] using hq) db.mediaFiles h

theorem addExifData_mediaFiles (db : DB) (fid : Nat) (e : Option ExifInput) :
    (addExifData db fid e).mediaFiles = db.mediaFiles := by
  unfold addExifData
  cases e with
  | none => rfl
  | some e0 =>
    simp only
    cases db.exifData.find? (fun r => r.fileId == fid) <;> rfl

theorem mergedExifRow_fileId (existing : Option ExifRow) (fid : Nat) (e : ExifInput) :
    (mergedExifRow existing fid e).fileId = fid := rfl

theorem addExifData_of_found (db : DB) (fid : Nat) (e : ExifInput) (ex : ExifRow)
    (h : db.exifData.find? (fun r => r.fileId == fid) = some ex) :
    addExifData db fid (some e) =
      { db with exifData := db.exifData.map (fun r =>
          if r.fileId == fid then mergedExifRow (some ex) fid e else r) } := by
  unfold addExifData
  simp only [h]

theorem addExifData_find?_of_found (db : DB) (fid : Nat) (e : ExifInput) (ex : ExifRow)
    (h : db.exifData.find? (fun r => r.fileId == fid) = some ex) :
    (addExifData db fid (some e)).exifData.find? (fun r => r.fileId == fid)
      = some (mergedExifRow (some ex) fid e) := by
  rw [addExifData_of_found db fid e ex h]
  exact find?_map_guard _ (fun _ => mergedExifRow (some ex) fid e) ex
    (fun _ => by simp [mergedExifRow_fileId]) db.exifData h

/-- The row written into `media_files` by `update_favorite`. -/
def favMediaRow (r : MediaRow) (b : Bool) : MediaRow :=
  { r with isFavorited := if b then 1 else 0, rating := if b then 5 else 0 }

/-- The row written into `exif_data` by `update_favorite`. -/
def favExifRow (r : ExifRow) (b : Bool) : ExifRow :=
  { r with isFavorited := if b then 1 else 0, rating := some (if b then 5 else 0) }

theorem updateFavorite_fst_of_found (db : DB) (p : String) (b : Bool) (old : MediaRow)
    (h : db.mediaFiles.find? (fun r => r.path == p) = some old) :
    (updateFavorite db p b).1 =
      { db with
          mediaFiles := db.mediaFiles.map (fun r =>
            if r.path == p then favMediaRow r b else r)
          exifData := db.exifData.map (fun r =>
            if r.fileId == old.id then favExifRow r b else r) } := by
  simp only [updateFavorite, h, Option.map_some', favMediaRow, favExifRow]

theorem updateFavorite_snd_of_found (db : DB) (p : String) (b : Bool) (old : MediaRow)
    (h : db.mediaFiles.find? (fun r => r.path == p) = some old) :
    (updateFavorite db p b).2 = true := by
  have hq : (old.path == p) = true := by
    have := List.find?_some h
    exact this
  have hmem : old ∈ db.mediaFiles.filter (fun r => r.path == p) :=
    List.mem_filter.mpr ⟨List.mem_of_find?_eq_some h, hq⟩
  simp only [updateFavorite, decide_eq_true_eq]
  exact List.length_pos.mpr (List.ne_nil_of_mem hmem)

theorem updateFavorite_of_missing (db : DB) (p : String) (b : Bool)
    (h : db.mediaFiles.find? (fun r => r.path == p) = none) :
    updateFavorite db p b = (db, false) := by
  have hfil : db.mediaFiles.filter (fun r => r.path == p) = [] :=
    List.filter_eq_nil_iff.mpr (List.find?_eq_none.mp h)
  have hmap : db.mediaFiles.map (fun r =>
      if r.path == p then { r with isFavorited := if b then 1 else 0
                                   rating := if b then 5 else 0 } else r)
      = db.mediaFiles :=
    map_guard_id _ _ db.mediaFiles h
  simp only [updateFavorite, h, Option.map_none', hfil, List.length_nil, hmap]
  rfl

theorem updateFavorite_media_find? (db : DB) (p : String) (b : Bool) (old : MediaRow)
    (h : db.mediaFiles.find? (fun r => r.path == p) = some old) :
    ((updateFavorite db p b).1).mediaFiles.find? (fun r => r.path == p)
      = some (favMediaRow old b) := by
  rw [updateFavorite_fst_of_found db p b old h]
  exact find?_map_guard _ (fun r => favMediaRow r b) old
    (fun hq => by simpa [favMediaRow] using hq) db.mediaFiles h

theorem updateFavorite_exif_find? (db : DB) (p : String) (b : Bool)
    (old : MediaRow) (ex : ExifRow)
    (h : db.mediaFiles.find? (fun r => r.path == p) = some old)
    (hex : db.exifData.find? (fun r => r.fileId == old.id) = some ex) :
    ((updateFavorite db p b).1).exifData.find? (fun r => r.fileId == old.id)
      = some (favExifRow ex b) := by
  rw [updateFavorite_fst_of_found db p b old h]
  exact find?_map_guard _ (fun r => favExifRow r b) ex
    (fun hq => by simpa [favExifRow] using hq) db.exifData hex

theorem hasGeocodedLocation_of_find? (db : DB) (fid : Nat) (ex : ExifRow)
    (h : db.exifData.find? (fun r => r.fileId == fid) = some ex) :
    hasGeocodedLocation db fid = ex.locationCity.isSome := by
  unfold hasGeocodedLocation
  rw [h]

theorem updateExifLocation_mediaFiles (db : DB) (fid : Nat) (loc : LocationData) :
    (updateExifLocation db fid loc).mediaFiles = db.mediaFiles := rfl

theorem addGeocodeCache_mediaFiles (db : DB) (lat lon : Rat) (loc : LocationData)
    (now : Int) : (addGeocodeCache db lat lon loc now).mediaFiles = db.mediaFiles := by
  unfold addGeocodeCache
  by_cases h : db.geocodeCache.any (fun g =>
      g.latitude == round3 lat && g.longitude == round3 lon && g.precisionLevel == 3) = true
  · simp [h]
  · simp [h]

/-- The `from .const import GEOCODE_STATS_BATCH_SIZE` at the top of
`get_geocode_cache` fails for every input: `const.py` does not assign
that name. -/
theorem getGeocodeCache_always_import_error (db : DB) (stats : GeocodeStats)
    (lat lon : Rat) :
    getGeocodeCache db stats lat lon =
      Except.error (PyError.importError "GEOCODE_STATS_BATCH_SIZE") := rfl

theorem applyDimensions_path (fd : FileData) (e : Option ExifInput) :
    (applyDimensions fd e).path = fd.path := by
  unfold applyDimensions
  cases e with
  | none => rfl
  | some e0 =>
    by_cases h : fd.fileType == "image"
    · simp [h]
    · by_cases h2 : fd.fileType == "video" <;> simp [h, h2]

theorem applyDimensions_modifiedTime (fd : FileData) (e : Option ExifInput) :
    (applyDimensions fd e).modifiedTime = fd.modifiedTime := by
  unfold applyDimensions
  cases e with
  | none => rfl
  | some e0 =>
    by_cases h : fd.fileType == "image"
    · simp [h]
    · by_cases h2 : fd.fileType == "video" <;> simp [h, h2]

theorem applyDimensions_isFavorited (fd : FileData) (e : Option ExifInput) :
    (applyDimensions fd e).isFavorited = fd.isFavorited := by
  unfold applyDimensions
  cases e with
  | none => rfl
  | some e0 =>
    by_cases h : fd.fileType == "image"
    · simp [h]
    · by_cases h2 : fd.fileType == "video" <;> simp [h, h2]

/-- The geocoding block of the walk either skips (guard false or
coordinates not both set) leaving store and counters alone, or dies on
the geocode-cache `ImportError`. -/
theorem scanGeocodeBranch_cases (db : DB) (stats : GeocodeStats) (ctx : ScanCtx)
    (fid : Nat) (e : ExifInput) (now : Int) :
    scanGeocodeBranch db stats ctx fid e now = Except.ok (db, stats) ∨
    scanGeocodeBranch db stats ctx fid e now =
      Except.error (PyError.importError "GEOCODE_STATS_BATCH_SIZE") := by
  unfold scanGeocodeBranch
  by_cases hguard : (ctx.enableGeocoding && ctx.hasGeocodeService &&
      (ratTruthy e.latitude && ratTruthy e.longitude) &&
      !(hasGeocodedLocation db fid)) = true
  · rw [if_pos hguard]
    cases e.latitude with
    | none => left; rfl
    | some la =>
      cases e.longitude with
      | none => left; rfl
      | some lo =>
        right; rfl
  · rw [if_neg hguard]
    left; rfl

/-- When the file is already geocoded the walk's geocoding block is a
no-op. -/
theorem scanGeocodeBranch_skip (db : DB) (stats : GeocodeStats) (ctx : ScanCtx)
    (fid : Nat) (e : ExifInput) (now : Int)
    (h : hasGeocodedLocation db fid = true) :
    scanGeocodeBranch db stats ctx fid e now = Except.ok (db, stats) := by
  unfold scanGeocodeBranch
  rw [h]
  simp

theorem coalesceNullif_absorb (v x : Int) :
    coalesceNullif v (coalesceNullif v x) = coalesceNullif v x := by
  unfold coalesceNullif
  by_cases h : v = 0 <;> simp [h]

theorem or_or_self {α : Type} (o x : Option α) : o.or (o.or x) = o.or x := by
  cases o <;> rfl

/-! ### Claim C2 -/

/-- C2: every call to `CacheManager.get_geocode_cache` raises an
unhandled `ImportError` before querying the cache — `const.py` does not
define `GEOCODE_STATS_BATCH_SIZE` — so a geocode-cache lookup never
returns a cached place (nor `None`), and the ingest branch that
consults the geocode cache fails with this error whenever its guard
actually reaches the consultation. -/
theorem getGeocodeCache_import_error_spec :
    (∀ (db : DB) (stats : GeocodeStats) (lat lon : Rat),
       getGeocodeCache db stats lat lon =
         Except.error (PyError.importError "GEOCODE_STATS_BATCH_SIZE")) ∧
    (∀ (db : DB) (stats : GeocodeStats) (ctx : ScanCtx) (fileId : Nat)
       (e : ExifInput) (now : Int),
       (ctx.enableGeocoding && ctx.hasGeocodeService &&
        (ratTruthy e.latitude && ratTruthy e.longitude) &&
        !(hasGeocodedLocation db fileId)) = true →
       scanGeocodeBranch db stats ctx fileId e now =
         Except.error (PyError.importError "GEOCODE_STATS_BATCH_SIZE")) := by
  constructor
  · intro db stats lat lon
    exact getGeocodeCache_always_import_error db stats lat lon
  · intro db stats ctx fileId e now h
    have h2 := h
    simp only [Bool.and_eq_true] at h2
    have hlat := h2.1.2.1
    have hlon := h2.1.2.2
    unfold scanGeocodeBranch
    rw [if_pos]
    · cases hla : e.latitude with
      | none => rw [hla] at hlat; simp [ratTruthy] at hlat
      | some la =>
        cases hlo : e.longitude with
        | none => rw [hlo] at hlon; simp [ratTruthy] at hlon
        | some lo => rfl
    · exact h

/-- Extraction result with truthy GPS coordinates, for the C2 witness. -/
def c2ExifInput : ExifInput :=
  { cameraMake := none, cameraModel := none, dateTaken := some 100
    latitude := some 47, longitude := some (-122), altitude := none
    rating := none, isFavorited := none, iso := none, aperture := none
    shutterSpeed := none, focalLength := none, focalLength35mm := none
    exposureCompensation := none, meteringMode := none, whiteBalance := none
    flash := none, width := none, height := none, orientation := none
    videoDuration := none }

/-- Witness for C2's guarded conjunct: a geocoding-enabled context with
truthy coordinates and a not-yet-geocoded file reaches the cache
consultation and dies on the `ImportError`. -/
theorem getGeocodeCache_import_error_spec_witness :
    scanGeocodeBranch emptyDB ⟨0, 0, 0⟩
        ⟨true, true, fun _ _ => none⟩ 1 c2ExifInput 0 =
      Except.error (PyError.importError "GEOCODE_STATS_BATCH_SIZE") :=
  getGeocodeCache_import_error_spec.2 emptyDB ⟨0, 0, 0⟩
    ⟨true, true, fun _ _ => none⟩ 1 c2ExifInput 0 (by decide)

/-! ### Claim C3 -/

/-- C3 (code-bug evidence): `scan_folder` finalizes its `ScanRecord` by
calling `update_scan(scan_id, files_added, "aborted")` (resp.
`"failed"`, `"completed"`), which by Python positional binding stores
the status string in the `files_updated` column and leaves `status` at
its default `'completed'` — so an aborted or failed walk is recorded
with terminal status `'completed'`, contradicting the claimed
finalization statuses. -/
theorem scan_finalize_status_bug :
    (((scanFinalizeAborted (recordScan emptyDB "/media/photos" "full" 7).1
         (recordScan emptyDB "/media/photos" "full" 7).2 3 8).scanHistory.map
        (fun s => (s.status, s.filesUpdated, s.endTime)))
      = [(some "completed", SqlVal.text "aborted", some 8)]) ∧
    (((scanFinalizeFailed (recordScan emptyDB "/media/photos" "full" 7).1
         (recordScan emptyDB "/media/photos" "full" 7).2 3 8).scanHistory.map
        (fun s => (s.status, s.filesUpdated, s.endTime)))
      = [(some "completed", SqlVal.text "failed", some 8)]) ∧
    (((recordScan emptyDB "/media/photos" "full" 7).1.scanHistory.map
        (fun s => (s.status, s.endTime)))
      = [(some "running", none)]) := by
  refine ⟨rfl, rfl, rfl⟩

/-! ### Claim C4 -/

/-- Sample catalog for C4: one indexed file with its exif row. -/
def c4Media : MediaRow :=
  { id := 1, path := "/media/a.jpg", filename := "a.jpg", folder := "/media"
    fileType := "image", fileSize := some 100, modifiedTime := 5
    createdTime := some 1, duration := none, width := none, height := none
    orientation := none, lastScanned := 50, isFavorited := 0, rating := 0
    ratedAt := none }

def c4Exif : ExifRow :=
  { fileId := 1, cameraMake := none, cameraModel := none, dateTaken := some 100
    latitude := none, longitude := none, altitude := none
    locationName := none, locationCity := none, locationState := none
    locationCountry := none, rating := none, isFavorited := 0
    iso := none, aperture := none, shutterSpeed := none, focalLength := none
    focalLength35mm := none, exposureCompensation := none, meteringMode := none
    whiteBalance := none, flash := none }

def c4DB : DB :=
  { emptyDB with mediaFiles := [c4Media], exifData := [c4Exif], nextFileId := 2 }

/-- C4 (code-bug evidence): `remove_file` does delete the media row and
its exif row together (the cascade), but it returns `True` even when
the given path is not present — the `DELETE` of a missing path is not
an error, and only an exception path returns `False`.  Concretely:
removing `"/media/missing.jpg"` from a catalog that does not contain it
changes nothing and still returns `True`. -/
theorem removeFile_returns_true_for_missing_path :
    ((removeFile c4DB "/media/missing.jpg").2 = true ∧
     (removeFile c4DB "/media/missing.jpg").1 = c4DB) ∧
    ((removeFile c4DB "/media/a.jpg").1.mediaFiles = [] ∧
     (removeFile c4DB "/media/a.jpg").1.exifData = [] ∧
     (removeFile c4DB "/media/a.jpg").2 = true) := by
  exact ⟨⟨rfl, rfl⟩, rfl, rfl, rfl⟩

/-! ### Claim C10 -/

/-- C10: `update_favorite(path, b)` overwrites the rating to 5 when `b`
is true and to 0 when `b` is false, together with the favorite flag, in
the `media_files` row — whether or not an `exif_data` row exists for
the file — and likewise in its `exif_data` row when there is one (the
`exif_data` table is untouched when there is none), and returns true
exactly when the path exists in `media_files` (so unfavoriting erases
any stored rating). -/
theorem updateFavorite_sets_rating_and_flag :
    (∀ (db : DB) (p : String) (b : Bool) (m : MediaRow),
       db.mediaFiles.find? (fun r => r.path == p) = some m →
       (updateFavorite db p b).2 = true ∧
       ((updateFavorite db p b).1).mediaFiles.find? (fun r => r.path == p) =
         some { m with isFavorited := if b then 1 else 0
                       rating := if b then 5 else 0 } ∧
       (∀ ex : ExifRow,
          db.exifData.find? (fun r => r.fileId == m.id) = some ex →
          ((updateFavorite db p b).1).exifData.find? (fun r => r.fileId == m.id) =
            some { ex with isFavorited := if b then 1 else 0
                           rating := some (if b then 5 else 0) }) ∧
       (db.exifData.find? (fun r => r.fileId == m.id) = none →
          ((updateFavorite db p b).1).exifData = db.exifData)) ∧
    (∀ (db : DB) (p : String) (b : Bool),
       db.mediaFiles.find? (fun r => r.path == p) = none →
       updateFavorite db p b = (db, false)) := by
  constructor
  · intro db p b m hm
    refine ⟨updateFavorite_snd_of_found db p b m hm, ?_, ?_, ?_⟩
    · simpa [favMediaRow] using updateFavorite_media_find? db p b m hm
    · intro ex hex
      simpa [favExifRow] using updateFavorite_exif_find? db p b m ex hm hex
    · intro hnone
      rw [updateFavorite_fst_of_found db p b m hm]
      exact map_guard_id _ (fun r => favExifRow r b) db.exifData hnone
  · intro db p b h
    exact updateFavorite_of_missing db p b h

/-- Sample catalog for the C10 witness. -/
def c10Media : MediaRow :=
  { id := 1, path := "/media/f.jpg", filename := "f.jpg", folder := "/media"
    fileType := "image", fileSize := some 10, modifiedTime := 5
    createdTime := none, duration := none, width := none, height := none
    orientation := none, lastScanned := 50, isFavorited := 1, rating := 4
    ratedAt := none }

def c10Exif : ExifRow :=
  { fileId := 1, cameraMake := none, cameraModel := none, dateTaken := none
    latitude := none, longitude := none, altitude := none
    locationName := none, locationCity := none, locationState := none
    locationCountry := none, rating := some 4, isFavorited := 1
    iso := none, aperture := none, shutterSpeed := none, focalLength := none
    focalLength35mm := none, exposureCompensation := none, meteringMode := none
    whiteBalance := none, flash := none }

def c10DB : DB :=
  { emptyDB with mediaFiles := [c10Media], exifData := [c10Exif], nextFileId := 2 }

/-- A media-only file (extraction yielded no exif row). -/
def c10MediaOnly : MediaRow :=
  { c10Media with path := "/media/g.jpg", filename := "g.jpg", isFavorited := 0, rating := 0 }

def c10DBOnly : DB :=
  { emptyDB with mediaFiles := [c10MediaOnly], nextFileId := 2 }

/-- Witness for C10: unfavoriting the one indexed file resets rating to
0 in both rows and returns true; favoriting a media-only file (no
`exif_data` row) still returns true, writes flag and rating 5 to the
media row and leaves `exif_data` untouched; a missing path returns
false and leaves the store unchanged. -/
theorem updateFavorite_sets_rating_and_flag_witness :
    ((updateFavorite c10DB "/media/f.jpg" false).2 = true ∧
     ((updateFavorite c10DB "/media/f.jpg" false).1).mediaFiles.find?
         (fun r => r.path == "/media/f.jpg") =
       some { c10Media with isFavorited := if false then 1 else 0
                            rating := if false then 5 else 0 } ∧
     ((updateFavorite c10DB "/media/f.jpg" false).1).exifData.find?
         (fun r => r.fileId == c10Media.id) =
       some { c10Exif with isFavorited := if false then 1 else 0
                           rating := some (if false then 5 else 0) }) ∧
    ((updateFavorite c10DBOnly "/media/g.jpg" true).2 = true ∧
     ((updateFavorite c10DBOnly "/media/g.jpg" true).1).mediaFiles.find?
         (fun r => r.path == "/media/g.jpg") =
       some { c10MediaOnly with isFavorited := if true then 1 else 0
                                rating := if true then 5 else 0 } ∧
     ((updateFavorite c10DBOnly "/media/g.jpg" true).1).exifData =
       c10DBOnly.exifData) ∧
    updateFavorite c10DB "/media/zz.jpg" true = (c10DB, false) :=
  ⟨⟨(updateFavorite_sets_rating_and_flag.1 c10DB "/media/f.jpg" false c10Media rfl).1,
    (updateFavorite_sets_rating_and_flag.1 c10DB "/media/f.jpg" false c10Media rfl).2.1,
    (updateFavorite_sets_rating_and_flag.1 c10DB "/media/f.jpg" false c10Media
        rfl).2.2.1 c10Exif rfl⟩,
   ⟨(updateFavorite_sets_rating_and_flag.1 c10DBOnly "/media/g.jpg" true c10MediaOnly
        rfl).1,
    (updateFavorite_sets_rating_and_flag.1 c10DBOnly "/media/g.jpg" true c10MediaOnly
        rfl).2.1,
    (updateFavorite_sets_rating_and_flag.1 c10DBOnly "/media/g.jpg" true c10MediaOnly
        rfl).2.2.2 rfl⟩,
   updateFavorite_sets_rating_and_flag.2 c10DB "/media/zz.jpg" true rfl⟩

/-! ### Claim C6 -/

theorem coalesceNullif_self (v : Int) : coalesceNullif v v = v := by
  unfold coalesceNullif
  by_cases h : v = 0 <;> simp [h]

theorem addFile_find?_of_new (db : DB) (fd : FileData) (t : Int)
    (h : db.mediaFiles.find? (fun r => r.path == fd.path) = none) :
    ((addFile db fd t).1).mediaFiles.find? (fun r => r.path == fd.path)
      = some (addFileFreshRow db fd t) := by
  unfold addFile
  rw [h]
  simp only
  rw [List.find?_append, h, Option.none_or]
  apply List.find?_cons_of_pos
  simp [addFileFreshRow]

theorem addFileMergedRow_of_fresh (db : DB) (fd : FileData) (t1 t2 : Int) :
    addFileMergedRow (addFileFreshRow db fd t1) fd t2 = addFileFreshRow db fd t1 := by
  unfold addFileMergedRow addFileFreshRow
  simp [coalesceNullif_self, Option.or_self]

theorem addFileMergedRow_of_merged (old : MediaRow) (fd : FileData) (t1 t2 : Int) :
    addFileMergedRow (addFileMergedRow old fd t1) fd t2 = addFileMergedRow old fd t1 := by
  unfold addFileMergedRow
  simp [coalesceNullif_absorb, or_or_self]

/-- Sample catalog for C6: a stored row with size 100 and modified time
5; the re-scan record has size 200 and the same modified time. -/
def c6Media : MediaRow :=
  { id := 1, path := "/media/g.jpg", filename := "g.jpg", folder := "/media"
    fileType := "image", fileSize := some 100, modifiedTime := 5
    createdTime := none, duration := none, width := none, height := none
    orientation := none, lastScanned := 50, isFavorited := 0, rating := 0
    ratedAt := none }

def c6DB : DB :=
  { emptyDB with mediaFiles := [c6Media], nextFileId := 2 }

def c6FD : FileData :=
  { path := "/media/g.jpg", filename := "g.jpg", folder := "/media"
    fileType := "image", fileSize := some 200, modifiedTime := 5
    createdTime := none, duration := none, width := none, height := none
    orientation := none, isFavorited := none, rating := none, ratedAt := none }

/-- C6 counterexample: `add_file` decides whether to keep
`last_scanned` from the modified time alone.  Here the file size
changed (100 → 200) while the modified time is unchanged, so the claim
requires `last_scanned` to be bumped to the current time 99, but the
code keeps the stored value 50. -/
theorem addFile_size_change_keeps_lastScanned :
    c6Media.fileSize = some 100 ∧ c6FD.fileSize = some 200 ∧
    c6FD.modifiedTime = c6Media.modifiedTime ∧
    ((addFile c6DB c6FD 99).1.mediaFiles.map (fun r => r.lastScanned)) = [50] ∧
    (50 : Int) ≠ 99 := by
  exact ⟨rfl, rfl, rfl, rfl, by decide⟩

/-- C6 as amended: for a path already present, `add_file` keeps
`last_scanned` exactly when the *modified time* is unchanged (the file
size plays no role); a new path gets the current time; and re-ingesting
the identical record twice leaves the whole row — including
`last_scanned`, `is_favorited` and `rating` — unchanged. -/
theorem addFile_lastScanned_spec :
    (∀ (db : DB) (fd : FileData) (t : Int) (old : MediaRow),
       db.mediaFiles.find? (fun r => r.path == fd.path) = some old →
       ∃ row, ((addFile db fd t).1).mediaFiles.find? (fun r => r.path == fd.path)
           = some row ∧
         row.lastScanned =
           (if fd.modifiedTime = old.modifiedTime then old.lastScanned else t)) ∧
    (∀ (db : DB) (fd : FileData) (t : Int),
       db.mediaFiles.find? (fun r => r.path == fd.path) = none →
       ∃ row, ((addFile db fd t).1).mediaFiles.find? (fun r => r.path == fd.path)
           = some row ∧ row.lastScanned = t) ∧
    (∀ (db : DB) (fd : FileData) (t1 t2 : Int),
       ((addFile (addFile db fd t1).1 fd t2).1).mediaFiles.find?
           (fun r => r.path == fd.path)
         = ((addFile db fd t1).1).mediaFiles.find? (fun r => r.path == fd.path)) := by
  refine ⟨?_, ?_, ?_⟩
  · intro db fd t old h
    refine ⟨addFileMergedRow old fd t, addFile_find?_of_found db fd t old h, ?_⟩
    by_cases hmt : fd.modifiedTime = old.modifiedTime
    · simp [addFileMergedRow, hmt]
    · have hmt2 : old.modifiedTime ≠ fd.modifiedTime := fun hh => hmt hh.symm
      simp [addFileMergedRow, hmt, hmt2]
  · intro db fd t h
    exact ⟨addFileFreshRow db fd t, addFile_find?_of_new db fd t h, rfl⟩
  · intro db fd t1 t2
    cases h : db.mediaFiles.find? (fun r => r.path == fd.path) with
    | none =>
      have h1 := addFile_find?_of_new db fd t1 h
      have h2 := addFile_find?_of_found (addFile db fd t1).1 fd t2 _ h1
      rw [h2, h1, addFileMergedRow_of_fresh]
    | some old =>
      have h1 := addFile_find?_of_found db fd t1 old h
      have h2 := addFile_find?_of_found (addFile db fd t1).1 fd t2 _ h1
      rw [h2, h1, addFileMergedRow_of_merged]

/-- Witness for C6's amended statement at the sample data: size-only
change keeps `last_scanned = 50`; a fresh path gets the current time;
double ingest is a no-op. -/
theorem addFile_lastScanned_spec_witness :
    (∃ row, ((addFile c6DB c6FD 99).1).mediaFiles.find?
        (fun r => r.path == c6FD.path) = some row ∧
      row.lastScanned =
        (if c6FD.modifiedTime = c6Media.modifiedTime then c6Media.lastScanned
         else 99)) ∧
    (∃ row, ((addFile emptyDB c6FD 77).1).mediaFiles.find?
        (fun r => r.path == c6FD.path) = some row ∧ row.lastScanned = 77) ∧
    ((addFile (addFile c6DB c6FD 91).1 c6FD 92).1).mediaFiles.find?
        (fun r => r.path == c6FD.path)
      = ((addFile c6DB c6FD 91).1).mediaFiles.find? (fun r => r.path == c6FD.path) :=
  ⟨addFile_lastScanned_spec.1 c6DB c6FD 99 c6Media rfl,
   addFile_lastScanned_spec.2.1 emptyDB c6FD 77 rfl,
   addFile_lastScanned_spec.2.2 c6DB c6FD 91 92⟩

/-! ### Pipeline-core lemmas -/

/-- The per-file body of the walk keeps the four location columns of an
already-geocoded exif row (non-empty city): `add_exif_data` copies them
forward and the geocoding block is skipped by `already_geocoded`. -/
theorem processFileCore_exif_sticky (db1 : DB) (stats : GeocodeStats) (ctx : ScanCtx)
    (path : String) (fid : Nat) (e : ExifInput) (now : Int) (m1 : MediaRow)
    (hfm : db1.mediaFiles.find? (fun r => r.path == path) = some m1)
    (hid1 : m1.id = fid) (ex : ExifRow)
    (hfe : db1.exifData.find? (fun r => r.fileId == fid) = some ex)
    (c : String) (hc : ex.locationCity = some c) (hcne : c ≠ "") :
    ∃ ex2, ((processFileCore db1 stats ctx path fid e now).1).exifData.find?
        (fun r => r.fileId == fid) = some ex2 ∧
      ex2.locationName = ex.locationName ∧ ex2.locationCity = ex.locationCity ∧
      ex2.locationState = ex.locationState ∧
      ex2.locationCountry = ex.locationCountry := by
  by_cases hpos : 0 < fid
  · have hkeep : strTruthy ex.locationCity = true := by
      rw [hc]
      simpa [strTruthy, bne_iff_ne] using hcne
    have hname : (mergedExifRow (some ex) fid e).locationName = ex.locationName := by
      simp [mergedExifRow, hkeep]
    have hcity : (mergedExifRow (some ex) fid e).locationCity = ex.locationCity := by
      simp [mergedExifRow, hkeep]
    have hstate : (mergedExifRow (some ex) fid e).locationState = ex.locationState := by
      simp [mergedExifRow, hkeep]
    have hcountry : (mergedExifRow (some ex) fid e).locationCountry
        = ex.locationCountry := by
      simp [mergedExifRow, hkeep]
    have h2 : (addExifData db1 fid (some e)).exifData.find?
        (fun r => r.fileId == fid) = some (mergedExifRow (some ex) fid e) :=
      addExifData_find?_of_found db1 fid e ex hfe
    have h2m : (addExifData db1 fid (some e)).mediaFiles.find?
        (fun r => r.path == path) = some m1 := by
      rw [addExifData_mediaFiles]
      exact hfm
    have h3 : ((updateFavorite (addExifData db1 fid (some e)) path
          (decide (5 ≤ e.rating.getD 0))).1).exifData.find?
        (fun r => r.fileId == fid)
        = some (favExifRow (mergedExifRow (some ex) fid e)
            (decide (5 ≤ e.rating.getD 0))) := by
      have h4 := updateFavorite_exif_find? (addExifData db1 fid (some e)) path
        (decide (5 ≤ e.rating.getD 0)) m1 (mergedExifRow (some ex) fid e) h2m
        (by rw [hid1]; exact h2)
      rwa [hid1] at h4
    have hgeo : hasGeocodedLocation
        ((updateFavorite (addExifData db1 fid (some e)) path
          (decide (5 ≤ e.rating.getD 0))).1) fid = true := by
      rw [hasGeocodedLocation_of_find? _ fid _ h3]
      have : (favExifRow (mergedExifRow (some ex) fid e)
          (decide (5 ≤ e.rating.getD 0))).locationCity
          = (mergedExifRow (some ex) fid e).locationCity := rfl
      rw [this, hcity, hc]
      rfl
    have hskip := scanGeocodeBranch_skip _ stats ctx fid e now hgeo
    have hcore : processFileCore db1 stats ctx path fid e now =
        (match scanGeocodeBranch
            ((updateFavorite (addExifData db1 fid (some e)) path
              (decide (5 ≤ e.rating.getD 0))).1) stats ctx fid e now with
         | Except.ok (db4, s1) => (db4, s1)
         | Except.error _ =>
             ((updateFavorite (addExifData db1 fid (some e)) path
               (decide (5 ≤ e.rating.getD 0))).1, stats)) := by
      unfold processFileCore
      rw [if_pos hpos]
    rw [hcore, hskip]
    exact ⟨favExifRow (mergedExifRow (some ex) fid e)
        (decide (5 ≤ e.rating.getD 0)), h3,
      hname, hcity, hstate, hcountry⟩
  · unfold processFileCore
    rw [if_neg hpos]
    exact ⟨ex, hfe, rfl, rfl, rfl, rfl⟩

/-- When the id is positive, the walk's per-file body always rewrites
the media row's favorite flag and rating via
`update_favorite(path, (rating or 0) >= 5)`. -/
theorem processFileCore_media_favorite (db1 : DB) (stats : GeocodeStats)
    (ctx : ScanCtx) (path : String) (fid : Nat) (e : ExifInput) (now : Int)
    (m1 : MediaRow)
    (hfm : db1.mediaFiles.find? (fun r => r.path == path) = some m1)
    (hpos : 0 < fid) :
    ((processFileCore db1 stats ctx path fid e now).1).mediaFiles.find?
        (fun r => r.path == path)
      = some (favMediaRow m1 (decide (5 ≤ e.rating.getD 0))) := by
  have h2m : (addExifData db1 fid (some e)).mediaFiles.find?
      (fun r => r.path == path) = some m1 := by
    rw [addExifData_mediaFiles]
    exact hfm
  have h3 := updateFavorite_media_find? (addExifData db1 fid (some e)) path
    (decide (5 ≤ e.rating.getD 0)) m1 h2m
  have hcore : processFileCore db1 stats ctx path fid e now =
      (match scanGeocodeBranch
          ((updateFavorite (addExifData db1 fid (some e)) path
            (decide (5 ≤ e.rating.getD 0))).1) stats ctx fid e now with
       | Except.ok (db4, s1) => (db4, s1)
       | Except.error _ =>
           ((updateFavorite (addExifData db1 fid (some e)) path
             (decide (5 ≤ e.rating.getD 0))).1, stats)) := by
    unfold processFileCore
    rw [if_pos hpos]
  rw [hcore]
  rcases scanGeocodeBranch_cases
      ((updateFavorite (addExifData db1 fid (some e)) path
        (decide (5 ≤ e.rating.getD 0))).1) stats ctx fid e now with hok | herr
  · rw [hok]
    exact h3
  · rw [herr]
    exact h3

/-- The single-file ingest leaves `media_files` untouched after
`add_file` when the extraction's rating is below 5 (no favorite
write-back; the geocoding section only touches `exif_data` and the
geocode cache, and in fact dies on the cache `ImportError`). -/
theorem scanFileCore_mediaFiles_of_low_rating (db1 : DB) (stats : GeocodeStats)
    (ctx : ScanCtx) (path : String) (fid : Nat) (e : ExifInput) (now : Int)
    (hr : e.rating.getD 0 < 5) :
    ((scanFileCore db1 stats ctx path fid e now).1).mediaFiles
      = db1.mediaFiles := by
  have h5 : ¬ (5 ≤ e.rating.getD 0) := not_le.mpr hr
  simp only [scanFileCore]
  rw [if_neg h5]
  by_cases hg : (ctx.enableGeocoding && ctx.hasGeocodeService &&
      ratTruthy e.latitude && ratTruthy e.longitude) = true
  · rw [if_pos hg]
    cases e.latitude with
    | none => exact addExifData_mediaFiles db1 fid (some e)
    | some la =>
      cases e.longitude with
      | none => exact addExifData_mediaFiles db1 fid (some e)
      | some lo =>
        exact addExifData_mediaFiles db1 fid (some e)
  · rw [if_neg hg]
    exact addExifData_mediaFiles db1 fid (some e)

/-! ### Claim C7 -/

/-- C7: for a file whose stored exif row has a non-empty
`location_city`, re-running the walk's per-file ingest —
`add_exif_data` with any new extraction result followed by the
geocoding step — leaves the stored `location_name`, `location_city`,
`location_state` and `location_country` unchanged, whatever the new
extraction or the geocoder would have computed. -/
theorem processFile_place_sticky (db : DB) (stats : GeocodeStats) (ctx : ScanCtx)
    (fd : FileData) (exifOpt : Option ExifInput) (now : Int) (m : MediaRow)
    (hm : db.mediaFiles.find? (fun r => r.path == fd.path) = some m)
    (ex : ExifRow)
    (hex : db.exifData.find? (fun r => r.fileId == m.id) = some ex)
    (c : String) (hc : ex.locationCity = some c) (hcne : c ≠ "") :
    ∃ ex2, ((processFile db stats ctx fd exifOpt now).1).exifData.find?
        (fun r => r.fileId == m.id) = some ex2 ∧
      ex2.locationName = ex.locationName ∧ ex2.locationCity = ex.locationCity ∧
      ex2.locationState = ex.locationState ∧
      ex2.locationCountry = ex.locationCountry := by
  cases exifOpt with
  | none =>
    have hres : (processFile db stats ctx fd none now).1
        = (addFile db (applyDimensions fd none) now).1 := rfl
    rw [hres, addFile_exifData]
    exact ⟨ex, hex, rfl, rfl, rfl, rfl⟩
  | some e =>
    have hm2 : db.mediaFiles.find?
        (fun r => r.path == (applyDimensions fd (some e)).path) = some m := by
      rw [applyDimensions_path]
      exact hm
    have hres : processFile db stats ctx fd (some e) now =
        processFileCore (addFile db (applyDimensions fd (some e)) now).1 stats ctx
          (applyDimensions fd (some e)).path
          (addFile db (applyDimensions fd (some e)) now).2 e now := rfl
    have hid : (addFile db (applyDimensions fd (some e)) now).2 = m.id := by
      rw [addFile_of_found db (applyDimensions fd (some e)) now m hm2]
    have hfm1 : ((addFile db (applyDimensions fd (some e)) now).1).mediaFiles.find?
        (fun r => r.path == (applyDimensions fd (some e)).path)
        = some (addFileMergedRow m (applyDimensions fd (some e)) now) :=
      addFile_find?_of_found db (applyDimensions fd (some e)) now m hm2
    have hfe1 : ((addFile db (applyDimensions fd (some e)) now).1).exifData.find?
        (fun r => r.fileId == m.id) = some ex := by
      rw [addFile_exifData]
      exact hex
    rw [hres, hid]
    exact processFileCore_exif_sticky _ stats ctx _ m.id e now
      (addFileMergedRow m (applyDimensions fd (some e)) now) hfm1
      (addFileMergedRow_id m (applyDimensions fd (some e)) now) ex hfe1 c hc hcne

/-- Sample catalog for the C7 witness: an indexed, geocoded file about
to be re-ingested with fresh coordinates and a geocoder that would
return a different place. -/
def c7Media : MediaRow :=
  { id := 1, path := "/media/h.jpg", filename := "h.jpg", folder := "/media"
    fileType := "image", fileSize := some 10, modifiedTime := 5
    createdTime := none, duration := none, width := none, height := none
    orientation := none, lastScanned := 50, isFavorited := 0, rating := 0
    ratedAt := none }

def c7Exif : ExifRow :=
  { fileId := 1, cameraMake := none, cameraModel := none, dateTaken := some 100
    latitude := some 47, longitude := some (-122), altitude := none
    locationName := some "Pike Place", locationCity := some "Seattle"
    locationState := some "WA", locationCountry := some "USA"
    rating := none, isFavorited := 0
    iso := none, aperture := none, shutterSpeed := none, focalLength := none
    focalLength35mm := none, exposureCompensation := none, meteringMode := none
    whiteBalance := none, flash := none }

def c7DB : DB :=
  { emptyDB with mediaFiles := [c7Media], exifData := [c7Exif], nextFileId := 2 }

def c7FD : FileData :=
  { path := "/media/h.jpg", filename := "h.jpg", folder := "/media"
    fileType := "image", fileSize := some 10, modifiedTime := 5
    createdTime := none, duration := none, width := none, height := none
    orientation := none, isFavorited := none, rating := none, ratedAt := none }

/-- Re-extraction with different coordinates, for the C7 witness. -/
def c7E : ExifInput :=
  { cameraMake := none, cameraModel := none, dateTaken := some 100
    latitude := some 48, longitude := some (-121), altitude := none
    rating := none, isFavorited := none, iso := none, aperture := none
    shutterSpeed := none, focalLength := none, focalLength35mm := none
    exposureCompensation := none, meteringMode := none, whiteBalance := none
    flash := none, width := none, height := none, orientation := none
    videoDuration := none }

def c7Ctx : ScanCtx :=
  { enableGeocoding := true, hasGeocodeService := true
    geocode := fun _ _ => some
      { locationName := some "Other", locationCity := some "Elsewhere"
        locationState := some "XX", locationCountry := some "Nowhere" } }

/-- Witness for C7 at the sample data: the stored Seattle place fields
survive a geocoding-enabled re-ingest with conflicting input. -/
theorem processFile_place_sticky_witness :
    ∃ ex2, ((processFile c7DB ⟨0, 0, 0⟩ c7Ctx c7FD (some c7E) 99).1).exifData.find?
        (fun r => r.fileId == c7Media.id) = some ex2 ∧
      ex2.locationName = c7Exif.locationName ∧
      ex2.locationCity = c7Exif.locationCity ∧
      ex2.locationState = c7Exif.locationState ∧
      ex2.locationCountry = c7Exif.locationCountry :=
  processFile_place_sticky c7DB ⟨0, 0, 0⟩ c7Ctx c7FD (some c7E) 99 c7Media rfl
    c7Exif rfl "Seattle" rfl (by decide)

/-! ### Claim C1 -/

/-- Sample catalog for C1: a favorited file (5 stars) about to be
re-ingested by the full walk with an extraction result that carries no
rating information. -/
def c1Media : MediaRow :=
  { id := 1, path := "/media/k.jpg", filename := "k.jpg", folder := "/media"
    fileType := "image", fileSize := some 10, modifiedTime := 5
    createdTime := none, duration := none, width := none, height := none
    orientation := none, lastScanned := 50, isFavorited := 1, rating := 5
    ratedAt := some 10 }

def c1Exif : ExifRow :=
  { fileId := 1, cameraMake := none, cameraModel := none, dateTaken := some 100
    latitude := none, longitude := none, altitude := none
    locationName := none, locationCity := none, locationState := none
    locationCountry := none, rating := some 5, isFavorited := 1
    iso := none, aperture := none, shutterSpeed := none, focalLength := none
    focalLength35mm := none, exposureCompensation := none, meteringMode := none
    whiteBalance := none, flash := none }

def c1DB : DB :=
  { emptyDB with mediaFiles := [c1Media], exifData := [c1Exif], nextFileId := 2 }

def c1FD : FileData :=
  { path := "/media/k.jpg", filename := "k.jpg", folder := "/media"
    fileType := "image", fileSize := some 10, modifiedTime := 5
    createdTime := none, duration := none, width := none, height := none
    orientation := none, isFavorited := none, rating := none, ratedAt := none }

/-- Extraction result with metadata but no rating, for C1. -/
def c1E : ExifInput :=
  { cameraMake := some "Acme", cameraModel := none, dateTaken := some 100
    latitude := none, longitude := none, altitude := none
    rating := none, isFavorited := none, iso := none, aperture := none
    shutterSpeed := none, focalLength := none, focalLength35mm := none
    exposureCompensation := none, meteringMode := none, whiteBalance := none
    flash := none, width := none, height := none, orientation := none
    videoDuration := none }

def c1Ctx : ScanCtx :=
  { enableGeocoding := false, hasGeocodeService := false
    geocode := fun _ _ => none }

/-- C1 counterexample: the walk body runs
`update_favorite(path, (rating or 0) >= 5)` whenever extraction
returned *any* metadata, so re-ingesting a favorited file whose
extraction supplies no rating resets `is_favorited` to 0 (and the
rating to 0) instead of leaving it true. -/
theorem scan_folder_reingest_resets_favorite :
    c1Media.isFavorited = 1 ∧ c1E.rating = none ∧
    ((processFile c1DB ⟨0, 0, 0⟩ c1Ctx c1FD (some c1E) 99).1).mediaFiles.map
        (fun r => (r.isFavorited, r.rating)) = [(0, 0)] :=
  ⟨rfl, rfl, rfl⟩

/-- C1 as amended: favorite survives a rating-less re-ingest only on
the paths that do not run the favorite write-back — the single-file
`scan_file` (which calls `update_favorite` solely when the extracted
rating is ≥ 5) and the walk body when extraction returned no metadata
at all.  The walk body with a truthy extraction and a rating below 5
instead resets `is_favorited` (and `rating`) to 0. -/
theorem favorite_stickiness_amended :
    (∀ (db : DB) (stats : GeocodeStats) (ctx : ScanCtx) (fd : FileData)
       (e : ExifInput) (now : Int) (m : MediaRow),
       db.mediaFiles.find? (fun r => r.path == fd.path) = some m →
       fd.isFavorited = none →
       e.rating.getD 0 < 5 →
       ∃ row, ((scanFile db stats ctx fd (some e) now).1).mediaFiles.find?
           (fun r => r.path == fd.path) = some row ∧
         row.isFavorited = m.isFavorited) ∧
    (∀ (db : DB) (stats : GeocodeStats) (ctx : ScanCtx) (fd : FileData)
       (now : Int) (m : MediaRow),
       db.mediaFiles.find? (fun r => r.path == fd.path) = some m →
       fd.isFavorited = none →
       ∃ row, ((processFile db stats ctx fd none now).1).mediaFiles.find?
           (fun r => r.path == fd.path) = some row ∧
         row.isFavorited = m.isFavorited) ∧
    (∀ (db : DB) (stats : GeocodeStats) (ctx : ScanCtx) (fd : FileData)
       (e : ExifInput) (now : Int) (m : MediaRow),
       db.mediaFiles.find? (fun r => r.path == fd.path) = some m →
       0 < m.id →
       e.rating.getD 0 < 5 →
       ∃ row, ((processFile db stats ctx fd (some e) now).1).mediaFiles.find?
           (fun r => r.path == fd.path) = some row ∧
         row.isFavorited = 0 ∧ row.rating = 0) := by
  refine ⟨?_, ?_, ?_⟩
  · intro db stats ctx fd e now m hm hfav hr
    have hmdpath : (if fd.fileType == "image" then applyDimensions fd (some e)
        else fd).path = fd.path := by
      by_cases h : (fd.fileType == "image") = true
      · rw [if_pos h, applyDimensions_path]
      · rw [if_neg h]
    have hmdfav : (if fd.fileType == "image" then applyDimensions fd (some e)
        else fd).isFavorited = none := by
      by_cases h : (fd.fileType == "image") = true
      · rw [if_pos h, applyDimensions_isFavorited]
        exact hfav
      · rw [if_neg h]
        exact hfav
    have hm2 : db.mediaFiles.find? (fun r => r.path ==
        (if fd.fileType == "image" then applyDimensions fd (some e) else fd).path)
        = some m := by
      rw [hmdpath]
      exact hm
    have hid : (addFile db (if fd.fileType == "image" then
        applyDimensions fd (some e) else fd) now).2 = m.id := by
      rw [addFile_of_found db _ now m hm2]
    have hfm1 := addFile_find?_of_found db
      (if fd.fileType == "image" then applyDimensions fd (some e) else fd) now m hm2
    have hrowfav : (addFileMergedRow m
        (if fd.fileType == "image" then applyDimensions fd (some e) else fd)
        now).isFavorited = m.isFavorited := by
      show coalesceNullif ((if fd.fileType == "image" then
          applyDimensions fd (some e) else fd).isFavorited.getD 0) m.isFavorited
        = m.isFavorited
      rw [hmdfav]
      rfl
    have hres : scanFile db stats ctx fd (some e) now =
        (if (addFile db (if fd.fileType == "image" then
              applyDimensions fd (some e) else fd) now).2 = 0 then
           ((addFile db (if fd.fileType == "image" then
               applyDimensions fd (some e) else fd) now).1, stats, false)
         else scanFileCore (addFile db (if fd.fileType == "image" then
             applyDimensions fd (some e) else fd) now).1 stats ctx
           (if fd.fileType == "image" then applyDimensions fd (some e)
            else fd).path
           (addFile db (if fd.fileType == "image" then
             applyDimensions fd (some e) else fd) now).2 e now) := rfl
    rw [hres, hid]
    by_cases hz : m.id = 0
    · rw [if_pos hz]
      rw [hmdpath] at hfm1
      exact ⟨_, hfm1, hrowfav⟩
    · rw [if_neg hz]
      have hmedia := scanFileCore_mediaFiles_of_low_rating
        (addFile db (if fd.fileType == "image" then applyDimensions fd (some e)
          else fd) now).1 stats ctx
        (if fd.fileType == "image" then applyDimensions fd (some e) else fd).path
        m.id e now hr
      rw [hmedia]
      rw [hmdpath] at hfm1
      exact ⟨_, hfm1, hrowfav⟩
  · intro db stats ctx fd now m hm hfav
    have hres : (processFile db stats ctx fd none now).1
        = (addFile db (applyDimensions fd none) now).1 := rfl
    have happ : applyDimensions fd none = fd := rfl
    rw [hres, happ]
    refine ⟨addFileMergedRow m fd now, addFile_find?_of_found db fd now m hm, ?_⟩
    simp [addFileMergedRow, hfav, coalesceNullif]
  · intro db stats ctx fd e now m hm hpos hr
    have hm2 : db.mediaFiles.find?
        (fun r => r.path == (applyDimensions fd (some e)).path) = some m := by
      rw [applyDimensions_path]
      exact hm
    have hres : processFile db stats ctx fd (some e) now =
        processFileCore (addFile db (applyDimensions fd (some e)) now).1 stats ctx
          (applyDimensions fd (some e)).path
          (addFile db (applyDimensions fd (some e)) now).2 e now := rfl
    have hid : (addFile db (applyDimensions fd (some e)) now).2 = m.id := by
      rw [addFile_of_found db (applyDimensions fd (some e)) now m hm2]
    have hfm1 := addFile_find?_of_found db (applyDimensions fd (some e)) now m hm2
    have hfind := processFileCore_media_favorite
      (addFile db (applyDimensions fd (some e)) now).1 stats ctx
      (applyDimensions fd (some e)).path m.id e now
      (addFileMergedRow m (applyDimensions fd (some e)) now) hfm1 hpos
    have hdec : decide (5 ≤ e.rating.getD 0) = false :=
      decide_eq_false (not_le.mpr hr)
    rw [hres, hid, applyDimensions_path]
    rw [applyDimensions_path] at hfind
    refine ⟨favMediaRow (addFileMergedRow m (applyDimensions fd (some e)) now)
        (decide (5 ≤ e.rating.getD 0)), hfind, ?_, ?_⟩
    · simp [favMediaRow, hdec]
    · simp [favMediaRow, hdec]

/-- Witness for C1's amended statement at the sample data: `scan_file`
and a metadata-less walk ingest keep `is_favorited = 1`, while the walk
ingest with rating-less metadata resets it to 0. -/
theorem favorite_stickiness_amended_witness :
    (∃ row, ((scanFile c1DB ⟨0, 0, 0⟩ c1Ctx c1FD (some c1E) 99).1).mediaFiles.find?
        (fun r => r.path == c1FD.path) = some row ∧
      row.isFavorited = c1Media.isFavorited) ∧
    (∃ row, ((processFile c1DB ⟨0, 0, 0⟩ c1Ctx c1FD none 99).1).mediaFiles.find?
        (fun r => r.path == c1FD.path) = some row ∧
      row.isFavorited = c1Media.isFavorited) ∧
    (∃ row, ((processFile c1DB ⟨0, 0, 0⟩ c1Ctx c1FD (some c1E) 99).1).mediaFiles.find?
        (fun r => r.path == c1FD.path) = some row ∧
      row.isFavorited = 0 ∧ row.rating = 0) :=
  ⟨favorite_stickiness_amended.1 c1DB ⟨0, 0, 0⟩ c1Ctx c1FD c1E 99 c1Media rfl rfl
     (by decide),
   favorite_stickiness_amended.2.1 c1DB ⟨0, 0, 0⟩ c1Ctx c1FD 99 c1Media rfl rfl,
   favorite_stickiness_amended.2.2 c1DB ⟨0, 0, 0⟩ c1Ctx c1FD c1E 99 c1Media rfl
     (by decide) (by decide)⟩

/-! ### Watcher lemmas (towards C9) -/

theorem count_ingest_map_ingest (paths : List String) (p : String) :
    ((paths.map DrainAction.ingest).count (DrainAction.ingest p))
      = paths.count p := by
  induction paths with
  | nil => rfl
  | cons a t ih =>
    simp [List.count_cons, ih, beq_iff_eq]

theorem count_ingest_map_remove (paths : List String) (p : String) :
    ((paths.map DrainAction.removeFromCache).count (DrainAction.ingest p)) = 0 := by
  induction paths with
  | nil => rfl
  | cons a t ih =>
    simp only [List.map_cons, List.count_cons, ih]
    simp

theorem count_map_fst_filter (p : String) (q : String × Nat → Bool) :
    ∀ (l : List (String × Nat)), (∀ kv ∈ l, kv.1 = p → q kv = true) →
      ((l.filter q).map Prod.fst).count p = (l.map Prod.fst).count p := by
  intro l
  induction l with
  | nil => intro _; rfl
  | cons kv t ih =>
    intro h
    have ht : ∀ x ∈ t, x.1 = p → q x = true := fun x hx => h x (List.mem_cons_of_mem kv hx)
    by_cases hq : q kv = true
    · simp only [List.filter_cons, hq, if_true, List.map_cons, List.count_cons, ih ht]
    · have hne : kv.1 ≠ p := fun hp => hq (h kv (List.mem_cons_self kv t) hp)
      rw [List.filter_cons, if_neg hq, ih ht, List.map_cons, List.count_cons]
      simp [hne]

theorem mem_map_fst_iff (p : String) (l : List (String × Nat)) :
    p ∈ l.map Prod.fst ↔ ∃ kv ∈ l, kv.1 = p := by
  constructor
  · intro h
    obtain ⟨kv, hkv, hfst⟩ := List.mem_map.mp h
    exact ⟨kv, hkv, hfst⟩
  · intro ⟨kv, hkv, hfst⟩
    exact List.mem_map.mpr ⟨kv, hkv, hfst⟩

/-- Accounting for one batched removal from a pending dictionary: the
batch keys and the surviving keys split the original key multiset, the
survivors stay duplicate-free, and the dictionary shrinks (strictly
when it was nonempty). -/
theorem dict_batch_spec (d : List (String × Nat)) (p : String)
    (hnd : (d.map Prod.fst).Nodup) :
    (((((List.insertionSort (fun a b => a.2 ≤ b.2) d).take MAX_BATCH_SIZE).map
        Prod.fst).count p)
      + (((d.filter (fun kv =>
          !(((List.insertionSort (fun a b => a.2 ≤ b.2) d).take
              MAX_BATCH_SIZE).any (fun b => b.1 == kv.1)))).map Prod.fst).count p)
      = ((d.map Prod.fst).count p)) ∧
    ((d.filter (fun kv =>
        !(((List.insertionSort (fun a b => a.2 ≤ b.2) d).take
            MAX_BATCH_SIZE).any (fun b => b.1 == kv.1)))).map Prod.fst).Nodup ∧
    (d.filter (fun kv =>
        !(((List.insertionSort (fun a b => a.2 ≤ b.2) d).take
            MAX_BATCH_SIZE).any (fun b => b.1 == kv.1)))).length ≤ d.length ∧
    (d ≠ [] →
      (d.filter (fun kv =>
          !(((List.insertionSort (fun a b => a.2 ≤ b.2) d).take
              MAX_BATCH_SIZE).any (fun b => b.1 == kv.1)))).length < d.length) := by
  set sorted := List.insertionSort (fun a b => a.2 ≤ b.2) d with hsorted
  set batch := sorted.take MAX_BATCH_SIZE with hbatch
  set survivors := d.filter (fun kv => !(batch.any (fun b => b.1 == kv.1)))
    with hsurv
  have hperm : sorted.Perm d := List.perm_insertionSort _ d
  have hpermf : (sorted.map Prod.fst).Perm (d.map Prod.fst) := hperm.map Prod.fst
  have hsortnd : (sorted.map Prod.fst).Nodup := (hpermf.nodup_iff).mpr hnd
  have hbatchsub : (batch.map Prod.fst).Sublist (sorted.map Prod.fst) :=
    (List.take_sublist _ _).map Prod.fst
  have hbatchnd : (batch.map Prod.fst).Nodup := hsortnd.sublist hbatchsub
  have hfilsub : (survivors.map Prod.fst).Sublist (d.map Prod.fst) :=
    (List.filter_sublist d).map Prod.fst
  refine ⟨?_, hnd.sublist hfilsub, List.length_filter_le _ d, ?_⟩
  · by_cases hmem : p ∈ batch.map Prod.fst
    · have hb1 : (batch.map Prod.fst).count p = 1 :=
        List.count_eq_one_of_mem hbatchnd hmem
      have hmemd : p ∈ d.map Prod.fst :=
        hpermf.mem_iff.mp (hbatchsub.subset hmem)
      have hd1 : (d.map Prod.fst).count p = 1 := List.count_eq_one_of_mem hnd hmemd
      have hf0 : (survivors.map Prod.fst).count p = 0 := by
        apply List.count_eq_zero_of_not_mem
        intro hin
        obtain ⟨kv, hkv, hfst⟩ := (mem_map_fst_iff p _).mp hin
        have hpred := (List.mem_filter.mp hkv).2
        obtain ⟨b, hbmem, hbfst⟩ := (mem_map_fst_iff p _).mp hmem
        have hany : batch.any (fun b => b.1 == kv.1) = true :=
          List.any_eq_true.mpr ⟨b, hbmem, by rw [hbfst, hfst]; exact beq_self_eq_true p⟩
        rw [hany] at hpred
        simp at hpred
      rw [hb1, hf0, hd1]
    · have hb0 : (batch.map Prod.fst).count p = 0 :=
        List.count_eq_zero_of_not_mem hmem
      have hfeq : (survivors.map Prod.fst).count p = (d.map Prod.fst).count p := by
        apply count_map_fst_filter p _ d
        intro kv hkv hfst
        have hany : batch.any (fun b => b.1 == kv.1) = false := by
          rw [Bool.eq_false_iff]
          intro hany
          obtain ⟨b, hb, hbeq⟩ := List.any_eq_true.mp hany
          apply hmem
          refine (mem_map_fst_iff p _).mpr ⟨b, hb, ?_⟩
          rw [hfst] at hbeq
          exact eq_of_beq hbeq
        rw [hany]
        rfl
      rw [hb0, hfeq, Nat.zero_add]
  · intro hne
    have hsortne : sorted ≠ [] := by
      intro hnil
      rw [hnil] at hperm
      exact hne hperm.symm.eq_nil
    have hbatchne : batch ≠ [] := by
      rw [hbatch, Ne, List.take_eq_nil_iff]
      rintro (h50 | hnil)
      · exact absurd h50 (by decide)
      · exact hsortne hnil
    obtain ⟨b0, hb0⟩ := List.exists_mem_of_ne_nil _ hbatchne
    have hb0d : b0 ∈ d := hperm.subset ((List.take_sublist _ _).subset hb0)
    apply length_filter_lt_of_mem _ b0 d hb0d
    have hany : batch.any (fun b => b.1 == b0.1) = true :=
      List.any_eq_true.mpr ⟨b0, hb0, beq_self_eq_true b0.1⟩
    rw [hany]
    rfl

theorem count_ingest_map_fst (batch : List (String × Nat)) (p : String) :
    ((batch.map (fun kv => DrainAction.ingest kv.1)).count (DrainAction.ingest p))
      = (batch.map Prod.fst).count p := by
  induction batch with
  | nil => rfl
  | cons kv t ih => simp [List.count_cons, ih, beq_iff_eq]

/-- Accounting for one batched removal from the pending-deleted set:
the survivors shrink, strictly when the set was nonempty. -/
theorem set_batch_spec (s : List String) :
    (s.filter (fun x => !((s.take MAX_BATCH_SIZE).contains x))).length ≤ s.length ∧
    (s ≠ [] →
      (s.filter (fun x => !((s.take MAX_BATCH_SIZE).contains x))).length
        < s.length) := by
  refine ⟨List.length_filter_le _ s, ?_⟩
  intro hne
  have hbatchne : s.take MAX_BATCH_SIZE ≠ [] := by
    rw [Ne, List.take_eq_nil_iff]
    rintro (h50 | hnil)
    · exact absurd h50 (by decide)
    · exact hne hnil
  obtain ⟨x0, hx0⟩ := List.exists_mem_of_ne_nil _ hbatchne
  have hx0s : x0 ∈ s := (List.take_sublist _ _).subset hx0
  apply length_filter_lt_of_mem _ x0 s hx0s
  have : (s.take MAX_BATCH_SIZE).contains x0 = true :=
    List.elem_eq_true_of_mem hx0
  rw [this]
  rfl

theorem drainCycle_snd (st : WatcherState) :
    (drainCycle st).2 =
      (st.pendingDeleted.take MAX_BATCH_SIZE).map DrainAction.removeFromCache ++
      ((List.insertionSort (fun a b => a.2 ≤ b.2) st.pendingNew).take
        MAX_BATCH_SIZE).map (fun kv => DrainAction.ingest kv.1) ++
      ((List.insertionSort (fun a b => a.2 ≤ b.2) st.pendingModified).take
        MAX_BATCH_SIZE).map (fun kv => DrainAction.ingest kv.1) := rfl

theorem drainCycle_fst_new (st : WatcherState) :
    ((drainCycle st).1).pendingNew =
      st.pendingNew.filter (fun kv =>
        !(((List.insertionSort (fun a b => a.2 ≤ b.2) st.pendingNew).take
            MAX_BATCH_SIZE).any (fun b => b.1 == kv.1))) := rfl

theorem drainCycle_fst_mod (st : WatcherState) :
    ((drainCycle st).1).pendingModified =
      st.pendingModified.filter (fun kv =>
        !(((List.insertionSort (fun a b => a.2 ≤ b.2) st.pendingModified).take
            MAX_BATCH_SIZE).any (fun b => b.1 == kv.1))) := rfl

theorem drainCycle_fst_del (st : WatcherState) :
    ((drainCycle st).1).pendingDeleted =
      st.pendingDeleted.filter (fun x =>
        !((st.pendingDeleted.take MAX_BATCH_SIZE).contains x)) := rfl

/-- The drain loop ingests each path exactly as many times as it occurs
as a key of the pending-new and pending-modified dictionaries. -/
theorem drainAll_ingest_count (p : String) :
    ∀ (fuel : Nat) (st : WatcherState),
      (st.pendingNew.map Prod.fst).Nodup →
      (st.pendingModified.map Prod.fst).Nodup →
      pendingSize st ≤ fuel →
      (drainAll fuel st).count (DrainAction.ingest p)
        = (st.pendingNew.map Prod.fst).count p
          + (st.pendingModified.map Prod.fst).count p := by
  intro fuel
  induction fuel with
  | zero =>
    intro st hn hm hsize
    have h0 : pendingSize st = 0 := Nat.le_zero.mp hsize
    unfold pendingSize at h0
    have hnew : st.pendingNew = [] := List.length_eq_zero.mp (by omega)
    have hmod : st.pendingModified = [] := List.length_eq_zero.mp (by omega)
    simp [drainAll, hnew, hmod]
  | succ fuel ih =>
    intro st hn hm hsize
    by_cases hempty : (st.pendingNew.isEmpty && st.pendingModified.isEmpty &&
        st.pendingDeleted.isEmpty) = true
    · have hempty2 := hempty
      simp only [Bool.and_eq_true, List.isEmpty_iff] at hempty2
      obtain ⟨⟨h1, h2⟩, h3⟩ := hempty2
      have hdrain : drainAll (fuel + 1) st = [] := by
        conv_lhs => rw [drainAll]
        rw [if_pos hempty]
      rw [hdrain, h1, h2]
      rfl
    · have hstep : drainAll (fuel + 1) st =
          (drainCycle st).2 ++ drainAll fuel (drainCycle st).1 := by
        conv_lhs => rw [drainAll]
        rw [if_neg hempty]
      obtain ⟨hcnew, hndnew, hlennew, hstrictnew⟩ := dict_batch_spec st.pendingNew p hn
      obtain ⟨hcmod, hndmod, hlenmod, hstrictmod⟩ :=
        dict_batch_spec st.pendingModified p hm
      obtain ⟨hlendel, hstrictdel⟩ := set_batch_spec st.pendingDeleted
      have hsize2 : pendingSize (drainCycle st).1 ≤ fuel := by
        have hlt : pendingSize (drainCycle st).1 < pendingSize st := by
          have hne : st.pendingNew ≠ [] ∨ st.pendingModified ≠ [] ∨
              st.pendingDeleted ≠ [] := by
            by_contra hcon
            push_neg at hcon
            obtain ⟨hh1, hh2, hh3⟩ := hcon
            exact hempty (by simp [hh1, hh2, hh3])
          simp only [pendingSize, drainCycle_fst_new, drainCycle_fst_mod,
            drainCycle_fst_del]
          rcases hne with h | h | h
          · have := hstrictnew h
            omega
          · have := hstrictmod h
            omega
          · have := hstrictdel h
            omega
        omega
      have hih := ih (drainCycle st).1
        (by rw [drainCycle_fst_new]; exact hndnew)
        (by rw [drainCycle_fst_mod]; exact hndmod) hsize2
      rw [hstep, List.count_append, hih, drainCycle_snd,
        List.count_append, List.count_append, count_ingest_map_remove,
        count_ingest_map_fst, count_ingest_map_fst,
        drainCycle_fst_new, drainCycle_fst_mod]
      omega

theorem dictSet_keys (d : List (String × Nat)) (k : String) (v : Nat)
    (h : d.any (fun kv => kv.1 == k) = true) :
    (dictSet d k v).map Prod.fst = d.map Prod.fst := by
  unfold dictSet
  rw [if_pos h, List.map_map]
  apply List.map_congr_left
  intro kv _
  by_cases hkv : (kv.1 == k) = true
  · simp only [Function.comp, if_pos hkv]
    exact (eq_of_beq hkv).symm
  · simp only [Function.comp, if_neg hkv]

theorem dictSet_keys_of_not (d : List (String × Nat)) (k : String) (v : Nat)
    (h : ¬ d.any (fun kv => kv.1 == k) = true) :
    (dictSet d k v).map Prod.fst = d.map Prod.fst ++ [k] := by
  unfold dictSet
  rw [if_neg h]
  simp

theorem dictSet_keys_nodup (d : List (String × Nat)) (k : String) (v : Nat)
    (h : (d.map Prod.fst).Nodup) : ((dictSet d k v).map Prod.fst).Nodup := by
  by_cases hany : d.any (fun kv => kv.1 == k) = true
  · rw [dictSet_keys d k v hany]
    exact h
  · rw [dictSet_keys_of_not d k v hany]
    have hk : k ∉ d.map Prod.fst := by
      intro hmem
      obtain ⟨kv, hkv, hfst⟩ := (mem_map_fst_iff k d).mp hmem
      exact hany (List.any_eq_true.mpr ⟨kv, hkv, by rw [hfst]; exact beq_self_eq_true k⟩)
    rw [List.nodup_append]
    refine ⟨h, List.nodup_singleton k, ?_⟩
    intro a ha hb
    rw [List.mem_singleton] at hb
    subst hb
    exact hk ha

theorem dictHas_iff_mem_keys (d : List (String × Nat)) (p : String) :
    dictHas d p = true ↔ p ∈ d.map Prod.fst := by
  unfold dictHas
  rw [List.any_eq_true]
  constructor
  · rintro ⟨kv, hkv, hbeq⟩
    exact (mem_map_fst_iff p d).mpr ⟨kv, hkv, eq_of_beq hbeq⟩
  · intro h
    obtain ⟨kv, hkv, hfst⟩ := (mem_map_fst_iff p d).mp h
    exact ⟨kv, hkv, by rw [hfst]; exact beq_self_eq_true p⟩

theorem dictHas_dictSet (d : List (String × Nat)) (k : String) (v : Nat) :
    dictHas (dictSet d k v) k = true := by
  unfold dictHas
  apply List.any_eq_true.mpr
  by_cases hany : d.any (fun kv => kv.1 == k) = true
  · obtain ⟨kv, hkv, hbeq⟩ := List.any_eq_true.mp hany
    refine ⟨(k, v), ?_, beq_self_eq_true k⟩
    unfold dictSet
    rw [if_pos hany]
    exact List.mem_map.mpr ⟨kv, hkv, by rw [if_pos hbeq]⟩
  · refine ⟨(k, v), ?_, beq_self_eq_true k⟩
    unfold dictSet
    rw [if_neg hany]
    exact List.mem_append.mpr (Or.inr (List.mem_singleton.mpr rfl))

theorem dictHas_dictPop_self (d : List (String × Nat)) (k : String) :
    dictHas (dictPop d k) k = false := by
  unfold dictHas dictPop
  rw [Bool.eq_false_iff]
  intro hany
  obtain ⟨kv, hkv, hbeq⟩ := List.any_eq_true.mp hany
  have hpred := (List.mem_filter.mp hkv).2
  simp only [bne_iff_ne, ne_eq] at hpred
  exact hpred (eq_of_beq hbeq)

theorem setDiscard_not_contains (s : List String) (k : String) :
    (setDiscard s k).contains k = false := by
  unfold setDiscard
  rw [Bool.eq_false_iff]
  intro hcon
  have hmem := List.mem_of_elem_eq_true hcon
  have hpred := (List.mem_filter.mp hmem).2
  simp [bne_iff_ne] at hpred

theorem onModified_of_pending_new (isMedia : String → Bool) (st : WatcherState)
    (p : String) (t : Nat) (h : dictHas st.pendingNew p = true) :
    onModified isMedia st p t = st := by
  unfold onModified
  by_cases hm : isMedia p = true
  · rw [if_pos hm, if_pos h]
  · rw [if_neg hm]

theorem foldl_onModified_fixed (isMedia : String → Bool) (stC : WatcherState)
    (p : String) (ts : List Nat) (h : dictHas stC.pendingNew p = true) :
    List.foldl (fun s t => onModified isMedia s p t) stC ts = stC := by
  induction ts with
  | nil => rfl
  | cons t ts ih =>
    rw [List.foldl_cons, onModified_of_pending_new isMedia stC p t h]
    exact ih

/-! ### Claim C9 -/

/-- C9: for a qualifying path `p`, `created(p)` followed by any number
of `modified(p)` events before the next drain leaves `p` only in the
pending-new dictionary (not in *modified* or *deleted*), and the
subsequent drain cycles then ingest `p` exactly once. -/
theorem watcher_event_coalescing (isMedia : String → Bool) (st0 : WatcherState)
    (p : String) (t0 : Nat) (ts : List Nat) (fuel : Nat)
    (hmedia : isMedia p = true)
    (hn : (st0.pendingNew.map Prod.fst).Nodup)
    (hm : (st0.pendingModified.map Prod.fst).Nodup)
    (hfuel : pendingSize (List.foldl (fun s t => onModified isMedia s p t)
        (onCreated isMedia st0 p t0) ts) ≤ fuel) :
    dictHas (List.foldl (fun s t => onModified isMedia s p t)
        (onCreated isMedia st0 p t0) ts).pendingNew p = true ∧
    dictHas (List.foldl (fun s t => onModified isMedia s p t)
        (onCreated isMedia st0 p t0) ts).pendingModified p = false ∧
    (List.foldl (fun s t => onModified isMedia s p t)
        (onCreated isMedia st0 p t0) ts).pendingDeleted.contains p = false ∧
    (drainAll fuel (List.foldl (fun s t => onModified isMedia s p t)
        (onCreated isMedia st0 p t0) ts)).count (DrainAction.ingest p) = 1 := by
  have hc : onCreated isMedia st0 p t0 =
      { pendingNew := dictSet st0.pendingNew p t0
        pendingModified := dictPop st0.pendingModified p
        pendingDeleted := setDiscard st0.pendingDeleted p } := by
    unfold onCreated
    rw [if_pos hmedia]
  have hhas : dictHas (onCreated isMedia st0 p t0).pendingNew p = true := by
    rw [hc]
    exact dictHas_dictSet _ p t0
  have hfold : List.foldl (fun s t => onModified isMedia s p t)
      (onCreated isMedia st0 p t0) ts = onCreated isMedia st0 p t0 :=
    foldl_onModified_fixed isMedia _ p ts hhas
  rw [hfold] at hfuel ⊢
  have hn1 : ((onCreated isMedia st0 p t0).pendingNew.map Prod.fst).Nodup := by
    rw [hc]
    exact dictSet_keys_nodup _ p t0 hn
  have hm1 : ((onCreated isMedia st0 p t0).pendingModified.map Prod.fst).Nodup := by
    rw [hc]
    exact hm.sublist ((List.filter_sublist _).map Prod.fst)
  have hmodhas : dictHas (onCreated isMedia st0 p t0).pendingModified p = false := by
    rw [hc]
    exact dictHas_dictPop_self _ p
  refine ⟨hhas, hmodhas, ?_, ?_⟩
  · rw [hc]
    exact setDiscard_not_contains _ p
  · rw [drainAll_ingest_count p fuel _ hn1 hm1 hfuel]
    have hmem : p ∈ (onCreated isMedia st0 p t0).pendingNew.map Prod.fst :=
      (dictHas_iff_mem_keys _ p).mp hhas
    have hnot : p ∉ (onCreated isMedia st0 p t0).pendingModified.map Prod.fst := by
      intro hmem2
      rw [(dictHas_iff_mem_keys _ p).mpr hmem2] at hmodhas
      exact Bool.true_eq_false.mp hmodhas
    rw [List.count_eq_one_of_mem hn1 hmem, List.count_eq_zero_of_not_mem hnot]

/-- Witness for C9: from an empty pending state, `created(p)` then two
`modified(p)` events drain to exactly one ingest of `p`. -/
theorem watcher_event_coalescing_witness :
    dictHas (List.foldl (fun s t => onModified (fun _ => true) s "/media/p.jpg" t)
        (onCreated (fun _ => true) ⟨[], [], []⟩ "/media/p.jpg" 1) [2, 3]).pendingNew
      "/media/p.jpg" = true ∧
    dictHas (List.foldl (fun s t => onModified (fun _ => true) s "/media/p.jpg" t)
        (onCreated (fun _ => true) ⟨[], [], []⟩ "/media/p.jpg" 1)
        [2, 3]).pendingModified "/media/p.jpg" = false ∧
    (List.foldl (fun s t => onModified (fun _ => true) s "/media/p.jpg" t)
        (onCreated (fun _ => true) ⟨[], [], []⟩ "/media/p.jpg" 1)
        [2, 3]).pendingDeleted.contains "/media/p.jpg" = false ∧
    (drainAll 1 (List.foldl (fun s t => onModified (fun _ => true) s "/media/p.jpg" t)
        (onCreated (fun _ => true) ⟨[], [], []⟩ "/media/p.jpg" 1) [2, 3])).count
      (DrainAction.ingest "/media/p.jpg") = 1 :=
  watcher_event_coalescing (fun _ => true) ⟨[], [], []⟩ "/media/p.jpg" 1 [2, 3] 1
    rfl (by decide) (by decide) (by decide)

/-! ### Sort-value and compound-key order lemmas (towards C8) -/

theorem beq_comm_of_decEq {β : Type} [DecidableEq β] (a b : β) :
    (a == b) = (b == a) := by
  by_cases h : a = b
  · subst h
    rfl
  · rw [beq_eq_false_iff_ne.mpr h, beq_eq_false_iff_ne.mpr (Ne.symm h)]

theorem svLt_asymm (a b : SortVal) : svLt a b = true → svLt b a = false := by
  intro h
  cases a with
  | int n =>
    cases b with
    | int m =>
      simp only [svLt, decide_eq_true_eq] at h
      simp only [svLt, decide_eq_false_iff_not]
      omega
    | str s => rfl
  | str s =>
    cases b with
    | int m => simp [svLt] at h
    | str t =>
      simp only [svLt, decide_eq_true_eq] at h
      simp only [svLt, decide_eq_false_iff_not]
      exact lt_asymm h

theorem svLt_irrefl (a : SortVal) : svLt a a = false := by
  by_cases h : svLt a a = true
  · exact svLt_asymm a a h
  · exact Bool.eq_false_iff.mpr h

theorem svLt_trans (a b c : SortVal) :
    svLt a b = true → svLt b c = true → svLt a c = true := by
  intro h1 h2
  cases a with
  | int n =>
    cases c with
    | int k =>
      cases b with
      | int m =>
        simp only [svLt, decide_eq_true_eq] at h1 h2 ⊢
        omega
      | str s => simp [svLt] at h2
    | str s => rfl
  | str s =>
    cases b with
    | int m => simp [svLt] at h1
    | str t =>
      cases c with
      | int k => simp [svLt] at h2
      | str u =>
        simp only [svLt, decide_eq_true_eq] at h1 h2 ⊢
        exact lt_trans h1 h2

theorem svLt_connex (a b : SortVal) :
    svLt a b = false → svLt b a = false → a = b := by
  intro h1 h2
  cases a with
  | int n =>
    cases b with
    | int m =>
      simp only [svLt, decide_eq_false_iff_not] at h1 h2
      have : n = m := by omega
      rw [this]
    | str s => simp [svLt] at h1
  | str s =>
    cases b with
    | int m => simp [svLt] at h2
    | str t =>
      simp only [svLt, decide_eq_false_iff_not] at h1 h2
      have : s = t := le_antisymm (not_lt.mp h2) (not_lt.mp h1)
      rw [this]

theorem keyLt_asymm (dir : OrderDir) (k1 k2 : SortVal × Nat) :
    keyLt dir k1 k2 = true → keyLt dir k2 k1 = false := by
  obtain ⟨v1, i1⟩ := k1
  obtain ⟨v2, i2⟩ := k2
  intro h
  cases dir
  case asc =>
    simp only [keyLt, Bool.or_eq_true, Bool.and_eq_true, beq_iff_eq,
      decide_eq_true_eq] at h
    simp only [keyLt, Bool.or_eq_false_iff, Bool.and_eq_false_iff,
      beq_eq_false_iff_ne, ne_eq, decide_eq_false_iff_not]
    rcases h with h | ⟨he, hlt⟩
    · refine ⟨svLt_asymm _ _ h, Or.inl ?_⟩
      intro heq
      rw [heq] at h
      rw [svLt_irrefl] at h
      exact Bool.false_ne_true h
    · subst he
      exact ⟨svLt_irrefl v1, Or.inr (by omega)⟩
  case desc =>
    simp only [keyLt, Bool.or_eq_true, Bool.and_eq_true, beq_iff_eq,
      decide_eq_true_eq] at h
    simp only [keyLt, Bool.or_eq_false_iff, Bool.and_eq_false_iff,
      beq_eq_false_iff_ne, ne_eq, decide_eq_false_iff_not]
    rcases h with h | ⟨he, hlt⟩
    · refine ⟨svLt_asymm _ _ h, Or.inl ?_⟩
      intro heq
      rw [heq] at h
      rw [svLt_irrefl] at h
      exact Bool.false_ne_true h
    · subst he
      exact ⟨svLt_irrefl v1, Or.inr (by omega)⟩

theorem keyLt_trans (dir : OrderDir) (k1 k2 k3 : SortVal × Nat) :
    keyLt dir k1 k2 = true → keyLt dir k2 k3 = true → keyLt dir k1 k3 = true := by
  obtain ⟨v1, i1⟩ := k1
  obtain ⟨v2, i2⟩ := k2
  obtain ⟨v3, i3⟩ := k3
  intro h1 h2
  cases dir
  case asc =>
    simp only [keyLt, Bool.or_eq_true, Bool.and_eq_true, beq_iff_eq,
      decide_eq_true_eq] at h1 h2 ⊢
    rcases h1 with h1 | ⟨he1, hl1⟩ <;> rcases h2 with h2 | ⟨he2, hl2⟩
    · exact Or.inl (svLt_trans _ _ _ h1 h2)
    · subst he2
      exact Or.inl h1
    · subst he1
      exact Or.inl h2
    · subst he1
      subst he2
      exact Or.inr ⟨rfl, by omega⟩
  case desc =>
    simp only [keyLt, Bool.or_eq_true, Bool.and_eq_true, beq_iff_eq,
      decide_eq_true_eq] at h1 h2 ⊢
    rcases h1 with h1 | ⟨he1, hl1⟩ <;> rcases h2 with h2 | ⟨he2, hl2⟩
    · exact Or.inl (svLt_trans _ _ _ h2 h1)
    · subst he2
      exact Or.inl h1
    · subst he1
      exact Or.inl h2
    · subst he1
      subst he2
      exact Or.inr ⟨rfl, by omega⟩

theorem keyLt_connex (dir : OrderDir) (k1 k2 : SortVal × Nat) :
    keyLt dir k1 k2 = false → keyLt dir k2 k1 = false → k1 = k2 := by
  obtain ⟨v1, i1⟩ := k1
  obtain ⟨v2, i2⟩ := k2
  intro h1 h2
  cases dir
  case asc =>
    simp only [keyLt, Bool.or_eq_false_iff, Bool.and_eq_false_iff,
      beq_eq_false_iff_ne, ne_eq, decide_eq_false_iff_not] at h1 h2
    obtain ⟨hsv1, hd1⟩ := h1
    obtain ⟨hsv2, hd2⟩ := h2
    have hveq : v1 = v2 := svLt_connex _ _ hsv1 hsv2
    subst hveq
    have hid : i1 = i2 := by
      rcases hd1 with h | h
      · exact absurd rfl h
      · rcases hd2 with h2 | h2
        · exact absurd rfl h2
        · omega
    rw [hid]
  case desc =>
    simp only [keyLt, Bool.or_eq_false_iff, Bool.and_eq_false_iff,
      beq_eq_false_iff_ne, ne_eq, decide_eq_false_iff_not] at h1 h2
    obtain ⟨hsv1, hd1⟩ := h1
    obtain ⟨hsv2, hd2⟩ := h2
    have hveq : v1 = v2 := svLt_connex _ _ hsv2 hsv1
    subst hveq
    have hid : i1 = i2 := by
      rcases hd1 with h | h
      · exact absurd rfl h
      · rcases hd2 with h2 | h2
        · exact absurd rfl h2
        · omega
    rw [hid]

theorem keyLe_total (dir : OrderDir) (k1 k2 : SortVal × Nat) :
    keyLe dir k1 k2 = true ∨ keyLe dir k2 k1 = true := by
  by_cases h1 : keyLt dir k1 k2 = true
  · exact Or.inl (by unfold keyLe; rw [h1]; rfl)
  · by_cases h2 : keyLt dir k2 k1 = true
    · exact Or.inr (by unfold keyLe; rw [h2]; rfl)
    · have := keyLt_connex dir k1 k2 (Bool.eq_false_iff.mpr h1)
        (Bool.eq_false_iff.mpr h2)
      subst this
      left
      unfold keyLe
      simp

theorem keyLe_trans (dir : OrderDir) (k1 k2 k3 : SortVal × Nat) :
    keyLe dir k1 k2 = true → keyLe dir k2 k3 = true → keyLe dir k1 k3 = true := by
  unfold keyLe
  simp only [Bool.or_eq_true, beq_iff_eq]
  rintro (h1 | he1) (h2 | he2)
  · exact Or.inl (keyLt_trans dir _ _ _ h1 h2)
  · rw [← he2]
    exact Or.inl h1
  · rw [he1]
    exact Or.inl h2
  · exact Or.inr (he1.trans he2)

theorem keyLe_antisymm (dir : OrderDir) (k1 k2 : SortVal × Nat) :
    keyLe dir k1 k2 = true → keyLe dir k2 k1 = true → k1 = k2 := by
  unfold keyLe
  simp only [Bool.or_eq_true, beq_iff_eq]
  rintro (h1 | he1) (h2 | he2)
  · have hf := keyLt_asymm dir _ _ h1
    rw [h2] at hf
    exact absurd hf (by decide)
  · exact he2.symm
  · exact he1
  · exact he1

theorem keyLt_of_keyLe_of_ne (dir : OrderDir) (k1 k2 : SortVal × Nat)
    (hle : keyLe dir k1 k2 = true) (hne : k1 ≠ k2) : keyLt dir k1 k2 = true := by
  unfold keyLe at hle
  rw [Bool.or_eq_true] at hle
  rcases hle with h | h
  · exact h
  · exact absurd (eq_of_beq h) hne

/-! ### Burst-query lemmas (towards C5) -/

/-- Unpacking of the burst WHERE clause for one joined row. -/
theorem burst_filter_iff (ex : ExifRow) (refDt W tol : Int) (prefer : Bool)
    (distance : Rat → Rat → Rat → Rat → Rat) (q : MediaRow × ExifRow) :
    ((match q.2.dateTaken with
      | none => false
      | some dt =>
        decide (|dt - refDt| ≤ W) &&
        (if (ratTruthy ex.latitude && ratTruthy ex.longitude && prefer) then
           (match ex.latitude, ex.longitude, q.2.latitude, q.2.longitude with
            | some rla, some rlo, some la, some lo =>
                decide (distance rla rlo la lo ≤ (tol : Rat))
            | _, _, _, _ => false)
         else true)) = true) ↔
    (∃ dt, q.2.dateTaken = some dt ∧ refDt - W ≤ dt ∧ dt ≤ refDt + W ∧
      ((ratTruthy ex.latitude && ratTruthy ex.longitude && prefer) = true →
        ∃ rla rlo la lo, ex.latitude = some rla ∧ ex.longitude = some rlo ∧
          q.2.latitude = some la ∧ q.2.longitude = some lo ∧
          distance rla rlo la lo ≤ (tol : Rat))) := by
  cases hdt : q.2.dateTaken with
  | none => simp
  | some dt =>
    constructor
    · intro h
      rw [Bool.and_eq_true] at h
      obtain ⟨habs, hloc⟩ := h
      rw [decide_eq_true_eq] at habs
      have hrange := abs_le.mp habs
      refine ⟨dt, rfl, by omega, by omega, ?_⟩
      intro hact
      rw [if_pos hact] at hloc
      cases hla : ex.latitude with
      | none => rw [hla] at hloc; simp at hloc
      | some rla =>
        cases hlo : ex.longitude with
        | none => rw [hla, hlo] at hloc; simp at hloc
        | some rlo =>
          cases hqa : q.2.latitude with
          | none => rw [hla, hlo, hqa] at hloc; simp at hloc
          | some la =>
            cases hqo : q.2.longitude with
            | none => rw [hla, hlo, hqa, hqo] at hloc; simp at hloc
            | some lo =>
              rw [hla, hlo, hqa, hqo] at hloc
              exact ⟨rla, rlo, la, lo, rfl, rfl, rfl, rfl, of_decide_eq_true hloc⟩
    · rintro ⟨dt2, hdt2, hge, hle, himp⟩
      have hdteq : dt2 = dt := by
        injection hdt2 with h
        exact h.symm
      subst hdteq
      rw [Bool.and_eq_true]
      refine ⟨by rw [decide_eq_true_eq]; exact abs_le.mpr ⟨by omega, by omega⟩, ?_⟩
      by_cases hact : (ratTruthy ex.latitude && ratTruthy ex.longitude && prefer)
          = true
      · rw [if_pos hact]
        obtain ⟨rla, rlo, la, lo, h1, h2, h3, h4, h5⟩ := himp hact
        rw [h1, h2, h3, h4]
        exact decide_eq_true h5
      · rw [if_neg hact]

/-! ### Claim C5 -/

/-- Sample catalog for the C5 counterexample: just the reference file
with capture time 1000. -/
def c5Media : MediaRow :=
  { id := 1, path := "/media/r.jpg", filename := "r.jpg", folder := "/media"
    fileType := "image", fileSize := some 10, modifiedTime := 5
    createdTime := none, duration := none, width := none, height := none
    orientation := none, lastScanned := 50, isFavorited := 0, rating := 0
    ratedAt := none }

def c5Exif : ExifRow :=
  { fileId := 1, cameraMake := none, cameraModel := none, dateTaken := some 1000
    latitude := none, longitude := none, altitude := none
    locationName := none, locationCity := none, locationState := none
    locationCountry := none, rating := none, isFavorited := 0
    iso := none, aperture := none, shutterSpeed := none, focalLength := none
    focalLength35mm := none, exposureCompensation := none, meteringMode := none
    whiteBalance := none, flash := none }

def c5DB : DB :=
  { emptyDB with mediaFiles := [c5Media], exifData := [c5Exif], nextFileId := 2 }

/-- C5 counterexample: the burst WHERE clause never excludes the
reference row, which always satisfies `ABS(date_taken - ref) = 0 ≤ W` —
so with a catalog holding only the reference, the claimed result (the
empty set of *other* files) differs from the actual result, which is
the reference itself. -/
theorem getBurstPhotos_includes_reference :
    ((getBurstPhotos c5DB (fun _ _ _ _ => 0) "/media/r.jpg" 10 true 50
        "time_asc").map (fun q => q.1.path)) = ["/media/r.jpg"] := rfl

/-- C5 as amended: for a reference with resolved nonzero capture time
T, the result is exactly the set of joined rows — the reference
included — whose non-null capture time lies in [T−W, T+W], further
restricted by the great-circle distance ≤ tolerance filter when the
reference coordinates are truthy (set and nonzero) and
`prefer_same_location` holds (rows lacking coordinates drop out then),
and it is ordered by capture time in the requested direction. -/
theorem getBurstPhotos_spec (db : DB) (distance : Rat → Rat → Rat → Rat → Rat)
    (refPath : String) (W : Int) (prefer : Bool) (tol : Int) (ord : String)
    (m : MediaRow) (hm : findMedia db refPath = some m)
    (ex : ExifRow) (hex : findExif db m.id = some ex)
    (refDt : Int) (hdt : ex.dateTaken = some refDt) (h0 : ¬ refDt = 0) :
    (∀ q, q ∈ getBurstPhotos db distance refPath W prefer tol ord ↔
       (q ∈ joinedInner db ∧ ∃ dt, q.2.dateTaken = some dt ∧
         refDt - W ≤ dt ∧ dt ≤ refDt + W ∧
         ((ratTruthy ex.latitude && ratTruthy ex.longitude && prefer) = true →
            ∃ rla rlo la lo, ex.latitude = some rla ∧ ex.longitude = some rlo ∧
              q.2.latitude = some la ∧ q.2.longitude = some lo ∧
              distance rla rlo la lo ≤ (tol : Rat)))) ∧
    (ord = "time_desc" →
       (getBurstPhotos db distance refPath W prefer tol ord).Pairwise
         (fun a b => burstKey b ≤ burstKey a)) ∧
    (¬ ord = "time_desc" →
       (getBurstPhotos db distance refPath W prefer tol ord).Pairwise
         (fun a b => burstKey a ≤ burstKey b)) := by
  have hres : getBurstPhotos db distance refPath W prefer tol ord =
      List.insertionSort (fun a b => burstLe ord a b = true)
        ((joinedInner db).filter (fun q =>
          match q.2.dateTaken with
          | none => false
          | some dt =>
            decide (|dt - refDt| ≤ W) &&
            (if (ratTruthy ex.latitude && ratTruthy ex.longitude && prefer) then
               (match ex.latitude, ex.longitude, q.2.latitude, q.2.longitude with
                | some rla, some rlo, some la, some lo =>
                    decide (distance rla rlo la lo ≤ (tol : Rat))
                | _, _, _, _ => false)
             else true))) := by
    unfold getBurstPhotos
    simp only [hm, hex, hdt]
    rw [if_neg h0]
  haveI htot : IsTotal (MediaRow × ExifRow) (fun a b => burstLe ord a b = true) := by
    constructor
    intro a b
    unfold burstLe
    by_cases h : (ord == "time_desc") = true
    · rw [if_pos h, if_pos h]
      simp only [decide_eq_true_eq]
      omega
    · rw [if_neg h, if_neg h]
      simp only [decide_eq_true_eq]
      omega
  haveI htrans : IsTrans (MediaRow × ExifRow) (fun a b => burstLe ord a b = true) := by
    constructor
    intro a b c hab hbc
    unfold burstLe at hab hbc ⊢
    by_cases h : (ord == "time_desc") = true
    · rw [if_pos h] at hab hbc ⊢
      simp only [decide_eq_true_eq] at hab hbc ⊢
      omega
    · rw [if_neg h] at hab hbc ⊢
      simp only [decide_eq_true_eq] at hab hbc ⊢
      omega
  have hsorted := List.sorted_insertionSort (fun a b => burstLe ord a b = true)
    ((joinedInner db).filter (fun q =>
      match q.2.dateTaken with
      | none => false
      | some dt =>
        decide (|dt - refDt| ≤ W) &&
        (if (ratTruthy ex.latitude && ratTruthy ex.longitude && prefer) then
           (match ex.latitude, ex.longitude, q.2.latitude, q.2.longitude with
            | some rla, some rlo, some la, some lo =>
                decide (distance rla rlo la lo ≤ (tol : Rat))
            | _, _, _, _ => false)
         else true)))
  refine ⟨?_, ?_, ?_⟩
  · intro q
    rw [hres, List.mem_insertionSort, List.mem_filter]
    exact and_congr_right (fun _ =>
      burst_filter_iff ex refDt W tol prefer distance q)
  · intro hord
    rw [hres]
    refine List.Pairwise.imp ?_ hsorted
    intro a b hab
    unfold burstLe at hab
    have : (ord == "time_desc") = true := by
      rw [hord]
      rfl
    rw [if_pos this] at hab
    exact of_decide_eq_true hab
  · intro hord
    rw [hres]
    refine List.Pairwise.imp ?_ hsorted
    intro a b hab
    unfold burstLe at hab
    have : ¬ (ord == "time_desc") = true := by
      intro hbeq
      exact hord (eq_of_beq hbeq)
    rw [if_neg this] at hab
    exact of_decide_eq_true hab

/-- A second file 50 seconds before the reference, for the C5 witness. -/
def c5Media2 : MediaRow :=
  { id := 2, path := "/media/s.jpg", filename := "s.jpg", folder := "/media"
    fileType := "image", fileSize := some 10, modifiedTime := 5
    createdTime := none, duration := none, width := none, height := none
    orientation := none, lastScanned := 50, isFavorited := 0, rating := 0
    ratedAt := none }

def c5Exif2 : ExifRow :=
  { c5Exif with fileId := 2, dateTaken := some 950 }

/-- A third file outside the 120-second window, for the C5 witness. -/
def c5Media3 : MediaRow :=
  { c5Media2 with id := 3, path := "/media/t.jpg", filename := "t.jpg" }

def c5Exif3 : ExifRow :=
  { c5Exif with fileId := 3, dateTaken := some 1300 }

def c5DB2 : DB :=
  { emptyDB with mediaFiles := [c5Media, c5Media2, c5Media3]
                 exifData := [c5Exif, c5Exif2, c5Exif3], nextFileId := 4 }

/-- Witness for C5's amended statement: membership of the in-window
file, and ascending capture-time order of the concrete result. -/
theorem getBurstPhotos_spec_witness :
    ((c5Media2, c5Exif2) ∈ getBurstPhotos c5DB2 (fun _ _ _ _ => 0) "/media/r.jpg"
        120 true 50 "time_asc" ↔
      ((c5Media2, c5Exif2) ∈ joinedInner c5DB2 ∧
       ∃ dt, c5Exif2.dateTaken = some dt ∧ 1000 - 120 ≤ dt ∧ dt ≤ 1000 + 120 ∧
         ((ratTruthy c5Exif.latitude && ratTruthy c5Exif.longitude && true) = true →
           ∃ rla rlo la lo, c5Exif.latitude = some rla ∧
             c5Exif.longitude = some rlo ∧ c5Exif2.latitude = some la ∧
             c5Exif2.longitude = some lo ∧
             (fun (_ _ _ _ : Rat) => (0 : Rat)) rla rlo la lo ≤ (50 : Rat)))) ∧
    (getBurstPhotos c5DB2 (fun _ _ _ _ => 0) "/media/r.jpg" 120 true 50
        "time_asc").Pairwise (fun a b => burstKey a ≤ burstKey b) :=
  ⟨(getBurstPhotos_spec c5DB2 (fun _ _ _ _ => 0) "/media/r.jpg" 120 true 50
      "time_asc" c5Media rfl c5Exif rfl 1000 rfl (by decide)).1 (c5Media2, c5Exif2),
   (getBurstPhotos_spec c5DB2 (fun _ _ _ _ => 0) "/media/r.jpg" 120 true 50
      "time_asc" c5Media rfl c5Exif rfl 1000 rfl (by decide)).2.2 (by decide)⟩

/-! ### Pagination completeness (towards C8) -/

theorem keyLt_irrefl (dir : OrderDir) (k : SortVal × Nat) :
    keyLt dir k k = false := by
  by_cases h : keyLt dir k k = true
  · exact keyLt_asymm dir k k h
  · exact Bool.eq_false_iff.mpr h

theorem filter_all_false {α : Type} (p : α → Bool) (l : List α)
    (h : ∀ a ∈ l, p a = false) : l.filter p = [] := by
  induction l with
  | nil => rfl
  | cons a t ih =>
    have ht := ih (fun x hx => h x (List.mem_cons_of_mem a hx))
    simp [List.filter_cons, h a (List.mem_cons_self a t), ht]

theorem filter_all_true {α : Type} (p : α → Bool) (l : List α)
    (h : ∀ a ∈ l, p a = true) : l.filter p = l := by
  induction l with
  | nil => rfl
  | cons a t ih =>
    have ht := ih (fun x hx => h x (List.mem_cons_of_mem a hx))
    simp [List.filter_cons, h a (List.mem_cons_self a t), ht]

/-- One page of the paginated walk over the already sorted full result
`S`: the rows strictly after the cursor key, truncated to the page
size. -/
def pageOf (dir : OrderDir) (ob : OrderBy) (n : Nat) (S : List JRow)
    (c : Option (SortVal × Nat)) : List JRow :=
  (match c with
   | none => S
   | some k => S.filter (fun r => keyLt dir k (rowKey ob r))).take n

/-- The abstract pagination loop on the sorted full result: emit a
page, feed the last row's key back, stop on an empty page. -/
def pagesOf (dir : OrderDir) (ob : OrderBy) (n : Nat) (S : List JRow) :
    Nat → Option (SortVal × Nat) → List JRow
  | 0, _ => []
  | fuel + 1, c =>
    match (pageOf dir ob n S c).getLast? with
    | none => []
    | some last => pageOf dir ob n S c ++ pagesOf dir ob n S fuel (some (rowKey ob last))

/-- Sorted lists over `keyLe` with pairwise-distinct keys are pairwise
strictly ordered. -/
theorem pairwise_keyLt_of_sorted (ob : OrderBy) (dir : OrderDir) (l : List JRow)
    (hs : l.Pairwise (fun a b => keyLe dir (rowKey ob a) (rowKey ob b) = true))
    (hn : l.Pairwise (fun a b => rowKey ob a ≠ rowKey ob b)) :
    l.Pairwise (fun a b => keyLt dir (rowKey ob a) (rowKey ob b) = true) :=
  List.Pairwise.imp (fun h => keyLt_of_keyLe_of_ne _ _ _ h.1 h.2) (hs.and hn)

/-- Two permuted lists that are both sorted strictly (pairwise `keyLt`)
are equal: sorting with a strict tiebreaker is deterministic. -/
theorem eq_of_perm_pairwise_keyLt (ob : OrderBy) (dir : OrderDir) :
    ∀ (l1 l2 : List JRow), l1.Perm l2 →
      l1.Pairwise (fun a b => keyLt dir (rowKey ob a) (rowKey ob b) = true) →
      l2.Pairwise (fun a b => keyLt dir (rowKey ob a) (rowKey ob b) = true) →
      l1 = l2 := by
  intro l1
  induction l1 with
  | nil =>
    intro l2 hp _ _
    exact hp.nil_eq
  | cons a t1 ih =>
    intro l2 hp h1 h2
    cases l2 with
    | nil =>
      have := hp.length_eq
      simp at this
    | cons b t2 =>
      have hab : a = b := by
        have ha2 : a ∈ b :: t2 := hp.mem_iff.mp (List.mem_cons_self a t1)
        have hb1 : b ∈ a :: t1 := hp.mem_iff.mpr (List.mem_cons_self b t2)
        rcases List.mem_cons.mp ha2 with h | h
        · exact h
        · rcases List.mem_cons.mp hb1 with h' | h'
          · exact h'.symm
          · have hba := (List.pairwise_cons.mp h2).1 a h
            have hab2 := (List.pairwise_cons.mp h1).1 b h'
            have hf := keyLt_asymm dir _ _ hab2
            rw [hf] at hba
            exact absurd hba (by decide)
      subst hab
      have ht : t1.Perm t2 := hp.cons_inv
      have := ih t2 ht (List.pairwise_cons.mp h1).2 (List.pairwise_cons.mp h2).2
      rw [this]

/-- Filtering commutes with sorting when all keys are distinct: the
sort of a filtered list is the filtered sort. -/
theorem insertionSort_filter_comm (ob : OrderBy) (dir : OrderDir)
    (p : JRow → Bool) (l : List JRow)
    (hn : l.Pairwise (fun a b => rowKey ob a ≠ rowKey ob b)) :
    List.insertionSort (fun a b => keyLe dir (rowKey ob a) (rowKey ob b) = true) (l.filter p)
      = (List.insertionSort (fun a b => keyLe dir (rowKey ob a) (rowKey ob b) = true) l).filter p := by
  haveI htot : IsTotal JRow (fun a b => keyLe dir (rowKey ob a) (rowKey ob b) = true) := by
    constructor
    intro a b
    exact keyLe_total dir _ _
  haveI htrans : IsTrans JRow (fun a b => keyLe dir (rowKey ob a) (rowKey ob b) = true) := by
    constructor
    intro a b c hab hbc
    exact keyLe_trans dir _ _ _ hab hbc
  have hsymm : ∀ {x y : JRow}, rowKey ob x ≠ rowKey ob y → rowKey ob y ≠ rowKey ob x :=
    fun h e => h e.symm
  have hperm1 := List.perm_insertionSort
    (fun a b => keyLe dir (rowKey ob a) (rowKey ob b) = true) (l.filter p)
  have hperm2 := List.perm_insertionSort
    (fun a b => keyLe dir (rowKey ob a) (rowKey ob b) = true) l
  have hperm : (List.insertionSort (fun a b => keyLe dir (rowKey ob a) (rowKey ob b) = true)
        (l.filter p)).Perm
      ((List.insertionSort (fun a b => keyLe dir (rowKey ob a) (rowKey ob b) = true) l).filter p) :=
    hperm1.trans (hperm2.filter p).symm
  have hs1 := List.sorted_insertionSort
    (fun a b => keyLe dir (rowKey ob a) (rowKey ob b) = true) (l.filter p)
  have hs2 := List.sorted_insertionSort
    (fun a b => keyLe dir (rowKey ob a) (rowKey ob b) = true) l
  have hs2f : ((List.insertionSort (fun a b => keyLe dir (rowKey ob a) (rowKey ob b) = true)
      l).filter p).Pairwise (fun a b => keyLe dir (rowKey ob a) (rowKey ob b) = true) :=
    List.Pairwise.sublist (List.filter_sublist _) hs2
  have hn1 : (List.insertionSort (fun a b => keyLe dir (rowKey ob a) (rowKey ob b) = true)
      (l.filter p)).Pairwise (fun a b => rowKey ob a ≠ rowKey ob b) :=
    (hperm1.pairwise_iff hsymm).mpr
      (List.Pairwise.sublist (List.filter_sublist _) hn)
  have hn2 : ((List.insertionSort (fun a b => keyLe dir (rowKey ob a) (rowKey ob b) = true)
      l).filter p).Pairwise (fun a b => rowKey ob a ≠ rowKey ob b) :=
    List.Pairwise.sublist (List.filter_sublist _) ((hperm2.pairwise_iff hsymm).mpr hn)
  exact eq_of_perm_pairwise_keyLt ob dir _ _ hperm
    (pairwise_keyLt_of_sorted ob dir _ hs1 hn1)
    (pairwise_keyLt_of_sorted ob dir _ hs2f hn2)

/-- The compound-cursor WHERE clause keeps exactly the rows whose
compound key comes strictly after the cursor key in the output order. -/
theorem cursorKeepCompound_eq_keyLt (dir : OrderDir) (ob : OrderBy)
    (av : SortVal) (aid : Nat) (r : JRow) :
    cursorKeepCompound dir ob av aid r = keyLt dir (av, aid) (rowKey ob r) := by
  cases dir <;>
    simp only [cursorKeepCompound, keyLt, rowKey] <;>
    rw [beq_comm_of_decEq (sortValue ob r) av]

/-- One `get_ordered_files` round trip with the compound cursor equals
one abstract page over the sorted unbounded result. -/
theorem getOrderedFiles_cursor_eq_pageOf (db : DB) (q : OrderedQuery)
    (hn : (joinedRows db).Pairwise (fun a b => rowKey q.orderBy a ≠ rowKey q.orderBy b))
    (c : Option (SortVal × Nat)) :
    getOrderedFiles db { q with afterValue := c.map Prod.fst, afterId := c.map Prod.snd }
      = pageOf q.dir q.orderBy q.count (orderedUnbounded db q) c := by
  cases c with
  | none => rfl
  | some k =>
    obtain ⟨av, aid⟩ := k
    show (List.insertionSort
        (fun a b => keyLe q.dir (rowKey q.orderBy a) (rowKey q.orderBy b) = true)
        ((filteredRows db q).filter (cursorKeepCompound q.dir q.orderBy av aid))).take q.count
      = ((orderedUnbounded db q).filter
          (fun r => keyLt q.dir (av, aid) (rowKey q.orderBy r))).take q.count
    have hfr : (filteredRows db q).filter (cursorKeepCompound q.dir q.orderBy av aid)
        = (filteredRows db q).filter (fun r => keyLt q.dir (av, aid) (rowKey q.orderBy r)) :=
      List.filter_congr (fun a _ => cursorKeepCompound_eq_keyLt q.dir q.orderBy av aid a)
    rw [hfr]
    have hnf : (filteredRows db q).Pairwise
        (fun a b => rowKey q.orderBy a ≠ rowKey q.orderBy b) :=
      List.Pairwise.sublist (List.filter_sublist _) hn
    rw [insertionSort_filter_comm q.orderBy q.dir _ (filteredRows db q) hnf]
    rfl

/-- The pagination driver is the abstract pagination loop on the sorted
unbounded result. -/
theorem paginateOrdered_eq_pagesOf (db : DB) (q : OrderedQuery)
    (hn : (joinedRows db).Pairwise (fun a b => rowKey q.orderBy a ≠ rowKey q.orderBy b)) :
    ∀ (fuel : Nat) (c : Option (SortVal × Nat)),
      paginateOrdered db q fuel c
        = pagesOf q.dir q.orderBy q.count (orderedUnbounded db q) fuel c := by
  intro fuel
  induction fuel with
  | zero =>
    intro c
    rfl
  | succ fuel ih =>
    intro c
    have hpg := getOrderedFiles_cursor_eq_pageOf db q hn c
    simp only [paginateOrdered, pagesOf]
    rw [hpg]
    simp only [ih]

/-- Draining the abstract pagination loop from the cursor at the end of
an already emitted prefix returns exactly the remaining suffix: each
page picks up precisely where the previous one stopped. -/
theorem pagesOf_spec (dir : OrderDir) (ob : OrderBy) (n : Nat) (S : List JRow)
    (hpos : 0 < n)
    (hS : S.Pairwise (fun a b => keyLt dir (rowKey ob a) (rowKey ob b) = true)) :
    ∀ (fuel : Nat) (pre suf : List JRow), S = pre ++ suf → suf.length ≤ fuel →
      pagesOf dir ob n S fuel ((pre.getLast?).map (rowKey ob)) = suf := by
  intro fuel
  induction fuel with
  | zero =>
    intro pre suf hsplit hlen
    have hnil : suf = [] := List.eq_nil_of_length_eq_zero (Nat.le_zero.mp hlen)
    rw [hnil]
    rfl
  | succ fuel ih =>
    intro pre suf hsplit hlen
    have hpage : pageOf dir ob n S ((pre.getLast?).map (rowKey ob)) = suf.take n := by
      cases hpre : pre.getLast? with
      | none =>
        have hpn : pre = [] := List.getLast?_eq_none_iff.mp hpre
        have hS2 : S = suf := by
          rw [hpn] at hsplit
          exact hsplit.trans (List.nil_append suf)
        show S.take n = suf.take n
        rw [hS2]
      | some lst =>
        have hdec : pre.dropLast ++ [lst] = pre :=
          List.dropLast_append_getLast? lst (Option.mem_def.mpr hpre)
        have hSp := hS
        rw [hsplit] at hSp
        rcases List.pairwise_append.mp hSp with ⟨hpreP, hsufP, hcross⟩
        have hlstmem : lst ∈ pre := by
          rw [← hdec]
          exact List.mem_append_right _ (List.mem_singleton_self lst)
        have htrue : ∀ r ∈ suf, keyLt dir (rowKey ob lst) (rowKey ob r) = true :=
          fun r hr => hcross lst hlstmem r hr
        have hfalse : ∀ r ∈ pre, keyLt dir (rowKey ob lst) (rowKey ob r) = false := by
          intro r hr
          rw [← hdec] at hr hpreP
          rcases List.mem_append.mp hr with h | h
          · rcases List.pairwise_append.mp hpreP with ⟨-, -, hc2⟩
            exact keyLt_asymm dir _ _ (hc2 r h lst (List.mem_singleton_self lst))
          · rw [List.mem_singleton.mp h]
            exact keyLt_irrefl dir _
        show (S.filter (fun r => keyLt dir (rowKey ob lst) (rowKey ob r))).take n
          = suf.take n
        rw [hsplit, List.filter_append, filter_all_false _ _ hfalse,
          filter_all_true _ _ htrue]
        rfl
    simp only [pagesOf]
    rw [hpage]
    by_cases hemp : suf = []
    · rw [hemp]
      simp
    · have htn : suf.take n ≠ [] := by
        intro h
        rcases List.take_eq_nil_iff.mp h with h | h
        · omega
        · exact hemp h
      obtain ⟨lst2, hlst2⟩ : ∃ x, (suf.take n).getLast? = some x := by
        cases h : (suf.take n).getLast? with
        | none => exact absurd (List.getLast?_eq_none_iff.mp h) htn
        | some x => exact ⟨x, rfl⟩
      rw [hlst2]
      show suf.take n ++ pagesOf dir ob n S fuel (some (rowKey ob lst2)) = suf
      have hsplit2 : S = (pre ++ suf.take n) ++ suf.drop n := by
        rw [List.append_assoc, List.take_append_drop]
        exact hsplit
      have hlen2 : (suf.drop n).length ≤ fuel := by
        rw [List.length_drop]
        omega
      have hrec := ih (pre ++ suf.take n) (suf.drop n) hsplit2 hlen2
      have hcur : (pre ++ suf.take n).getLast? = some lst2 := by
        rw [List.getLast?_append_of_ne_nil pre htn]
        exact hlst2
      rw [hcur] at hrec
      have hrec2 : pagesOf dir ob n S fuel (some (rowKey ob lst2)) = suf.drop n := hrec
      rw [hrec2]
      exact List.take_append_drop n suf

/-- Distinct media ids make the compound keys `(sort_value, id)` of the
joined rows pairwise distinct, for every sort field. -/
theorem joinedRows_keys_pairwise_ne (db : DB) (ob : OrderBy)
    (hids : (db.mediaFiles.map (fun m => m.id)).Nodup) :
    (joinedRows db).Pairwise (fun a b => rowKey ob a ≠ rowKey ob b) := by
  have hidsP : db.mediaFiles.Pairwise (fun m1 m2 => m1.id ≠ m2.id) :=
    List.pairwise_map.mp hids
  unfold joinedRows
  rw [List.pairwise_map]
  exact List.Pairwise.imp (fun hne heq => hne (congrArg Prod.snd heq)) hidsP

def c8m1 : MediaRow :=
  { id := 1, path := "/media/a.jpg", filename := "a.jpg", folder := "/media"
    fileType := "image", fileSize := none, modifiedTime := 10
    createdTime := none, duration := none, width := none, height := none
    orientation := none, lastScanned := 0, isFavorited := 0, rating := 0
    ratedAt := none }

def c8m2 : MediaRow :=
  { c8m1 with id := 2, path := "/media/b.jpg", filename := "b.jpg" }

def c8m3 : MediaRow :=
  { c8m1 with id := 3, path := "/media/c.jpg", filename := "c.jpg", modifiedTime := 5 }

/-- Three files, two of them tied on `modified_time`. -/
def c8DB : DB :=
  { emptyDB with mediaFiles := [c8m1, c8m2, c8m3], nextFileId := 4 }

def c8Q : OrderedQuery :=
  { count := 1, folder := none, recursive := true, fileType := none
    orderBy := OrderBy.modifiedTime, dir := OrderDir.desc
    afterValue := none, afterId := none }

/-- C8: pagination completeness.  On a catalog with distinct media ids
(the PRIMARY KEY invariant), any positive page size and any
filter/sort-field/direction choice, repeatedly calling
`get_ordered_files` with the compound cursor `(last sort value, last
id)` until an empty page comes back returns exactly the single
unbounded query with the same filters and ordering — no row repeated,
none skipped, even when the sort field has duplicate values — and that
result is duplicate-free. -/
theorem getOrderedFiles_pagination_complete (db : DB) (q : OrderedQuery) (fuel : Nat)
    (hids : (db.mediaFiles.map (fun m => m.id)).Nodup)
    (hcount : 0 < q.count)
    (hfuel : db.mediaFiles.length ≤ fuel) :
    paginateOrdered db q fuel none = orderedUnbounded db q ∧
    (orderedUnbounded db q).Nodup := by
  have hn : (joinedRows db).Pairwise
      (fun a b => rowKey q.orderBy a ≠ rowKey q.orderBy b) :=
    joinedRows_keys_pairwise_ne db q.orderBy hids
  haveI htot : IsTotal JRow
      (fun a b => keyLe q.dir (rowKey q.orderBy a) (rowKey q.orderBy b) = true) := by
    constructor
    intro a b
    exact keyLe_total q.dir _ _
  haveI htrans : IsTrans JRow
      (fun a b => keyLe q.dir (rowKey q.orderBy a) (rowKey q.orderBy b) = true) := by
    constructor
    intro a b c hab hbc
    exact keyLe_trans q.dir _ _ _ hab hbc
  have hsymm : ∀ {x y : JRow}, rowKey q.orderBy x ≠ rowKey q.orderBy y →
      rowKey q.orderBy y ≠ rowKey q.orderBy x := fun h e => h e.symm
  have hperm := List.perm_insertionSort
    (fun a b => keyLe q.dir (rowKey q.orderBy a) (rowKey q.orderBy b) = true)
    (filteredRows db q)
  have hnf : (filteredRows db q).Pairwise
      (fun a b => rowKey q.orderBy a ≠ rowKey q.orderBy b) :=
    List.Pairwise.sublist (List.filter_sublist _) hn
  have hnS : (orderedUnbounded db q).Pairwise
      (fun a b => rowKey q.orderBy a ≠ rowKey q.orderBy b) :=
    (hperm.pairwise_iff hsymm).mpr hnf
  have hsort := List.sorted_insertionSort
    (fun a b => keyLe q.dir (rowKey q.orderBy a) (rowKey q.orderBy b) = true)
    (filteredRows db q)
  have hSklt : (orderedUnbounded db q).Pairwise
      (fun a b => keyLt q.dir (rowKey q.orderBy a) (rowKey q.orderBy b) = true) :=
    pairwise_keyLt_of_sorted q.orderBy q.dir _ hsort hnS
  constructor
  · rw [paginateOrdered_eq_pagesOf db q hn fuel none]
    have hlenS : (orderedUnbounded db q).length ≤ fuel := by
      unfold orderedUnbounded
      rw [List.length_insertionSort]
      calc (filteredRows db q).length
          ≤ (joinedRows db).length := List.length_filter_le _ _
        _ = db.mediaFiles.length := List.length_map _ _
        _ ≤ fuel := hfuel
    exact pagesOf_spec q.dir q.orderBy q.count (orderedUnbounded db q) hcount hSklt
      fuel [] (orderedUnbounded db q) (List.nil_append _).symm hlenS
  · exact List.Pairwise.imp
      (fun hlt heq => by
        rw [heq] at hlt
        rw [keyLt_irrefl] at hlt
        exact absurd hlt (by decide))
      hSklt

/-- Witness for C8 on a concrete three-file catalog with a
`modified_time` tie, page size 1, descending order. -/
theorem getOrderedFiles_pagination_complete_witness :
    (c8DB.mediaFiles.map (fun m => m.id)).Nodup ∧ 0 < c8Q.count ∧
    c8DB.mediaFiles.length ≤ 3 ∧
    (paginateOrdered c8DB c8Q 3 none = orderedUnbounded c8DB c8Q ∧
      (orderedUnbounded c8DB c8Q).Nodup) :=
  ⟨by decide, by decide, by decide,
    getOrderedFiles_pagination_complete c8DB c8Q 3 (by decide) (by decide) (by decide)⟩

end MediaIndex
